import Mathlib

/-!
# globalOptNode.cpp : GPS / VIO synchronisation

A shallow embedding of `GPS_callback` and `vio_callback` of
`simulation_global_fusion/src/globalOptNode.cpp`.

* Arithmetic on C++ `double` is IEEE 754 binary64 with rounding to nearest,
  ties to even.  A finite double is the rational number it denotes, and `fl`
  rounds a rational to the nearest double (53 significant bits, gradual
  underflow below `2 ^ -1022`).  The code computes `t - 0.01` and `t + 0.01`
  as `fl (t - fl 0.01)` and `fl (t + fl 0.01)`.  Overflow is not modelled: a
  time stamp is below `2 ^ 33`.
* Time stamps reach the code through `header.stamp.toSec()`, which the
  library computes from the integer seconds and nanoseconds of the stamp as
  `(double)sec + 1e-9 * (double)nsec`, so they are finite doubles.
  `Time.seconds` is the time that a stamp denotes, `sec + nsec / 10 ^ 9` in
  exact arithmetic, which `toSec()` approximates.
* The other `double` fields of a message are raw payload and may hold any
  double, the infinities and NaN included (type `Double`).
* `std::queue` is a list whose head is `front()`; `push` appends at the
  tail, `pop` removes the head.
* `globalEstimator` (class `GlobalOptimization`, declared in `globalOpt.h`)
  is a parameter: an arbitrary state type with the three member functions
  the node calls.
* Every observable action of a callback (mutex operations, queue
  operations, estimator calls, publications) is recorded, in program order,
  in a list of `Event`s.
* The `while` loop is run with a fuel argument that bounds the number of
  executions of its body.
* The `printf` of line 119 and the bodies of the publishers are not part of
  the model; `publish_car_model` is recorded as one event with its arguments.
-/

namespace GlobalOptNode

/-! ## Double precision arithmetic -/

/-- Round to the nearest integer, ties to the even one. -/
def rne (z : ℚ) : ℤ :=
  if z - ⌊z⌋ < 1 / 2 then ⌊z⌋
  else if 1 / 2 < z - ⌊z⌋ then ⌊z⌋ + 1
  else if ⌊z⌋ % 2 = 0 then ⌊z⌋ else ⌊z⌋ + 1

/-- Exponent `e` of the binade `[2 ^ e, 2 ^ (e + 1))` of a positive number,
not below the least exponent -1022 of a normal double. -/
def binade (x : ℚ) : ℤ := max (Int.log 2 x) (-1022)

/-- Unit in the last place of the doubles of the binade of `x`. -/
def ulp (x : ℚ) : ℚ := 2 ^ (binade x - 52)

/-- The double nearest to a non-negative number. -/
def roundAbs (x : ℚ) : ℚ := rne (x / ulp x) * ulp x

/-- The double nearest to `x`: the result of an operation of exact value `x`,
and the value of the literal `x`. -/
@[irreducible]
def fl (x : ℚ) : ℚ := if 0 ≤ x then roundAbs x else -roundAbs (-x)

/-- Subtraction of doubles. -/
def dsub (a b : ℚ) : ℚ := fl (a - b)

/-- Addition of doubles. -/
def dadd (a b : ℚ) : ℚ := fl (a + b)

/-- Multiplication of doubles. -/
def dmul (a b : ℚ) : ℚ := fl (a * b)

/-- A `double` that is raw payload of a message: any value of the type. -/
inductive Double where
  | nan : Double
  | posInf : Double
  | negInf : Double
  | finite (q : ℚ) : Double

instance (n : Nat) : OfNat Double n := ⟨Double.finite n⟩

/-- The comparison `a <= b` of doubles; false when either side is NaN. -/
def Double.le : Double → Double → Bool
  | Double.finite a, Double.finite b => decide (a ≤ b)
  | Double.negInf, Double.nan => false
  | Double.negInf, _ => true
  | Double.finite _, Double.posInf => true
  | Double.posInf, Double.posInf => true
  | _, _ => false

/-- The comparison `a < b` of doubles; false when either side is NaN. -/
def Double.lt (a b : Double) : Bool := Double.le a b && !Double.le b a

/-! ## Messages -/

/-- The time type `ros::Time`: seconds and nanoseconds, two unsigned 32-bit
fields. -/
structure Time where
  sec : Nat
  nsec : Nat

/-- The member function `toSec()` of the library:
`(double)sec + 1e-9 * (double)nsec`. -/
def Time.toSec (s : Time) : ℚ := dadd (fl s.sec) (dmul (fl 1e-9) (fl s.nsec))

/-- Message header `std_msgs::Header` (the sequence number is not used). -/
structure Header where
  stamp : Time
  frame_id : String

/-- Message `sensor_msgs::NavSatFix`, the fields read by the node. -/
structure NavSatFix where
  header : Header
  latitude : Double
  longitude : Double
  altitude : Double
  position_covariance : Fin 9 → Double

/-- Message `geometry_msgs::Point`. -/
structure Point where
  x : Double
  y : Double
  z : Double

/-- Message `geometry_msgs::Quaternion`. -/
structure Quaternion where
  x : Double
  y : Double
  z : Double
  w : Double

/-- Message `geometry_msgs::Pose`. -/
structure Pose where
  position : Point
  orientation : Quaternion

/-- Message `geometry_msgs::PoseWithCovariance` (covariance not used). -/
structure PoseWithCovariance where
  pose : Pose

/-- Message `nav_msgs::Odometry` (twist not used). -/
structure Odometry where
  header : Header
  child_frame_id : String
  pose : PoseWithCovariance

/-- The vector type `Eigen::Vector3d`. -/
structure Vector3d where
  x : Double
  y : Double
  z : Double

/-- The quaternion type `Eigen::Quaterniond`. -/
structure Quaterniond where
  w : Double
  x : Double
  y : Double
  z : Double

/-! ## The fusion engine and the observable events -/

/-- The member functions of `GlobalOptimization` that the node calls, over an
arbitrary engine state `σ`. -/
structure GlobalOptimization (σ : Type) where
  inputOdom : ℚ → Vector3d → Quaterniond → σ → σ
  inputGPS : ℚ → Double → Double → Double → Double → σ → σ
  getGlobalOdom : σ → Vector3d × Quaterniond

/-- Observable actions of the callbacks, in program order.  `front` and
`pop` carry the queue element they return / remove, `push` the element it
appends, `empty` the answer of `gpsQueue.empty()`. -/
inductive Event where
  | lock : Event
  | unlock : Event
  | push (GPS_msg : NavSatFix) : Event
  | empty (r : Bool) : Event
  | front (GPS_msg : NavSatFix) : Event
  | pop (GPS_msg : NavSatFix) : Event
  | inputOdom (t : ℚ) (vio_t : Vector3d) (vio_q : Quaterniond) : Event
  | inputGPS (t : ℚ) (latitude longitude altitude pos_accuracy : Double) : Event
  | getGlobalOdom : Event
  | pub_global_odometry (odometry : Odometry) : Event
  | pub_global_path : Event
  | pub_ground_truth : Event
  | pub_adjusted_global_path : Event
  | publish_car_model (t : ℚ) (t_w_car : Vector3d) (q_w_car : Quaterniond) : Event

/-! ## Node state -/

/-- The globals of the node that the two callbacks touch. -/
structure Node (σ : Type) where
  globalEstimator : σ
  gpsQueue : List NavSatFix
  last_vio_t : ℚ
  shared_time : ℚ

/-! ## `GPS_callback` -/

/-- Lines 86-92: lock, push at the tail, unlock. -/
def GPS_callback {σ : Type} (n : Node σ) (GPS_msg : NavSatFix) : Node σ × List Event :=
  ({ n with gpsQueue := n.gpsQueue ++ [GPS_msg] },
   [Event.lock, Event.push GPS_msg, Event.unlock])

/-! ## The scan loop of `vio_callback` (lines 111-137) -/

/-- What the body of the loop does to the control flow: `brk` is a `break`,
`next` falls through to the next evaluation of the loop condition. -/
inductive Ctl where
  | brk : Ctl
  | next : Ctl
deriving DecidableEq

/-- The variables the loop works on.  `matched` records the `GPS_msg` for
which the branch of lines 118-132 ran (the one handed to `inputGPS`);
`trace` collects the actions performed so far. -/
structure LoopState (σ : Type) where
  globalEstimator : σ
  gpsQueue : List NavSatFix
  matched : Option NavSatFix
  trace : List Event

/-- Lines 124-126: the accuracy handed to `inputGPS`. -/
def pos_accuracy (GPS_msg : NavSatFix) : Double :=
  let pos_accuracy := GPS_msg.position_covariance 0
  if Double.le pos_accuracy 0 then 1 else pos_accuracy

/-- One execution of the loop body (lines 113-136) on a non-empty queue
`GPS_msg :: rest`.  The three conditions are tested in the order of the
source, on doubles: `0.01` is the double `fl 0.01` and the difference and
the sum are rounded.  When none of the conditions holds the body changes
nothing and control returns to the loop condition. -/
def loopBody {σ : Type} (E : GlobalOptimization σ) (t : ℚ) (s : LoopState σ)
    (GPS_msg : NavSatFix) (rest : List NavSatFix) : Ctl × LoopState σ :=
  let gps_t := GPS_msg.header.stamp.toSec
  let tr := s.trace ++ [Event.empty false, Event.front GPS_msg]
  if gps_t ≥ dsub t (fl 0.01) ∧ gps_t ≤ dadd t (fl 0.01) then
    let latitude := GPS_msg.latitude
    let longitude := GPS_msg.longitude
    let altitude := GPS_msg.altitude
    let acc := pos_accuracy GPS_msg
    (Ctl.brk,
     { globalEstimator := E.inputGPS t latitude longitude altitude acc s.globalEstimator
       gpsQueue := rest
       matched := some GPS_msg
       trace := tr ++ [Event.inputGPS t latitude longitude altitude acc, Event.pop GPS_msg] })
  else if gps_t < dsub t (fl 0.01) then
    (Ctl.next, { s with gpsQueue := rest, trace := tr ++ [Event.pop GPS_msg] })
  else if gps_t > dadd t (fl 0.01) then
    (Ctl.brk, { s with gpsQueue := GPS_msg :: rest, trace := tr })
  else
    (Ctl.next, { s with gpsQueue := GPS_msg :: rest, trace := tr })

/-- The loop `while(!gpsQueue.empty()) { ... }`.  `fuel` bounds the number
of executions of the body; `none` means the bound was reached with the loop
still running. -/
def scanLoop {σ : Type} (E : GlobalOptimization σ) (t : ℚ) :
    Nat → LoopState σ → Option (LoopState σ)
  | fuel, s =>
    match s.gpsQueue with
    | [] => some { s with trace := s.trace ++ [Event.empty true] }
    | GPS_msg :: rest =>
      match fuel with
      | 0 => none
      | fuel + 1 =>
        match loopBody E t s GPS_msg rest with
        | (Ctl.brk, s') => some s'
        | (Ctl.next, s') => scanLoop E t fuel s'

/-! ## `vio_callback` (lines 94-163) -/

/-- The loop state at line 110, after `m_buf.lock()`. -/
def enterLoop {σ : Type} (est : σ) (gpsQueue : List NavSatFix) (tr : List Event) :
    LoopState σ :=
  { globalEstimator := est, gpsQueue := gpsQueue, matched := none,
    trace := tr ++ [Event.lock] }

/-- What one run of `vio_callback` leaves behind: the node state, the fix
handed to `inputGPS` during the run (if any) and the actions performed. -/
structure Tick (σ : Type) where
  node : Node σ
  matched : Option NavSatFix
  trace : List Event

/-- Line 101: the translation read from the sample. -/
def vio_t (pose_msg : Odometry) : Vector3d :=
  ⟨pose_msg.pose.pose.position.x, pose_msg.pose.pose.position.y,
   pose_msg.pose.pose.position.z⟩

/-- Lines 102-106: the orientation read from the sample. -/
def vio_q (pose_msg : Odometry) : Quaterniond :=
  { w := pose_msg.pose.pose.orientation.w, x := pose_msg.pose.pose.orientation.x,
    y := pose_msg.pose.pose.orientation.y, z := pose_msg.pose.pose.orientation.z }

/-- Lines 144-154: the message published on `global_odometry`; its header is
the header of the sample with the frame set to `world`. -/
def fusedOdometry (pose_msg : Odometry) (global_t : Vector3d) (global_q : Quaterniond) :
    Odometry :=
  { header := { pose_msg.header with frame_id := "world" }
    child_frame_id := "world"
    pose := ⟨⟨⟨global_t.x, global_t.y, global_t.z⟩,
              { x := global_q.x, y := global_q.y, z := global_q.z, w := global_q.w }⟩⟩ }

/-- Lines 138-162, the actions that follow the scan loop: unlock, read the
fused pose from the engine in state `est`, publish. -/
def epilogue {σ : Type} (E : GlobalOptimization σ) (pose_msg : Odometry) (est : σ) :
    List Event :=
  let t := pose_msg.header.stamp.toSec
  let g := E.getGlobalOdom est
  let global_t := g.1
  let global_q := g.2
  [Event.unlock, Event.getGlobalOdom,
   Event.pub_global_odometry (fusedOdometry pose_msg global_t global_q),
   Event.pub_global_path, Event.pub_ground_truth, Event.pub_adjusted_global_path,
   Event.publish_car_model t global_t global_q]

/-- Lines 138-162: what follows the scan loop, which ended in loop state `s`.
The node state returned also holds the assignments of lines 98 and 100 to
`last_vio_t` and `shared_time`. -/
def afterLoop {σ : Type} (E : GlobalOptimization σ) (pose_msg : Odometry)
    (s : LoopState σ) : Tick σ :=
  let t := pose_msg.header.stamp.toSec
  { node := { globalEstimator := s.globalEstimator, gpsQueue := s.gpsQueue,
              last_vio_t := t, shared_time := t }
    matched := s.matched
    trace := s.trace ++ epilogue E pose_msg s.globalEstimator }

/-- The callback `vio_callback`, or `none` when the scan loop did not finish
within `fuel` executions of its body. -/
def vio_callback {σ : Type} (E : GlobalOptimization σ) (fuel : Nat) (n : Node σ)
    (pose_msg : Odometry) : Option (Tick σ) :=
  let t := pose_msg.header.stamp.toSec
  let est := E.inputOdom t (vio_t pose_msg) (vio_q pose_msg) n.globalEstimator
  match scanLoop E t fuel
      (enterLoop est n.gpsQueue [Event.inputOdom t (vio_t pose_msg) (vio_q pose_msg)]) with
  | none => none
  | some s => some (afterLoop E pose_msg s)

/-! ## Runs of the node -/

/-- A message delivered to the node: a fix on `/gps` or an odometry sample on
`/vins_estimator/odometry`. -/
inductive Input where
  | gps (GPS_msg : NavSatFix) : Input
  | vio (pose_msg : Odometry) : Input

/-- The callbacks run one after the other (`ros::spin()` serves both
subscriptions from one thread), in the order the messages are delivered; the
traces of the callbacks are concatenated. -/
def spin {σ : Type} (E : GlobalOptimization σ) (fuel : Nat) :
    Node σ → List Input → Option (Node σ × List Event)
  | n, [] => some (n, [])
  | n, Input.gps GPS_msg :: ins =>
    let r := GPS_callback n GPS_msg
    (spin E fuel r.1 ins).map (fun o => (o.1, r.2 ++ o.2))
  | n, Input.vio pose_msg :: ins =>
    match vio_callback E fuel n pose_msg with
    | none => none
    | some r => (spin E fuel r.node ins).map (fun o => (o.1, r.trace ++ o.2))

/-! ## Test fixtures -/

/-- A fix stamped `sec` seconds and `nsec` nanoseconds, with an otherwise zero
payload. -/
def fixAt (sec nsec : Nat) : NavSatFix :=
  { header := ⟨⟨sec, nsec⟩, ""⟩, latitude := 0, longitude := 0, altitude := 0,
    position_covariance := fun _ => 0 }

/-- A fix stamped `sec` seconds and `nsec` nanoseconds whose accuracy,
`position_covariance[0]`, is `acc`. -/
def fixWithAccuracy (sec nsec : Nat) (acc : Double) : NavSatFix :=
  { header := ⟨⟨sec, nsec⟩, ""⟩, latitude := 0, longitude := 0, altitude := 0,
    position_covariance := fun _ => acc }

/-- An odometry sample stamped `sec` seconds and `nsec` nanoseconds, at the
origin. -/
def odomAt (sec nsec : Nat) : Odometry :=
  { header := ⟨⟨sec, nsec⟩, ""⟩, child_frame_id := "",
    pose := ⟨⟨⟨0, 0, 0⟩, { x := 0, y := 0, z := 0, w := 1 }⟩⟩ }

/-- A fusion engine whose state is the number of observations it received. -/
def countingEngine : GlobalOptimization Nat where
  inputOdom := fun _ _ _ k => k + 1
  inputGPS := fun _ _ _ _ _ k => k + 1
  getGlobalOdom := fun _ => (⟨0, 0, 0⟩, { w := 1, x := 0, y := 0, z := 0 })

/-! ## Vocabulary of the specification -/

/-- The time, in seconds, that a stamp denotes: `sec + nsec / 10 ^ 9`, in exact
arithmetic.  The double that `toSec()` returns is an approximation of it. -/
def Time.seconds (s : Time) : ℚ := s.sec + s.nsec / 10 ^ 9

/-- The test of line 133: the fix is stale for the odometry time `t`. -/
def stale (t : ℚ) (f : NavSatFix) : Prop := f.header.stamp.toSec < dsub t (fl 0.01)

/-- The test of line 117: the fix is in the tolerance window of `t`. -/
def inWindow (t : ℚ) (f : NavSatFix) : Prop :=
  dsub t (fl 0.01) ≤ f.header.stamp.toSec ∧ f.header.stamp.toSec ≤ dadd t (fl 0.01)

/-- The test of line 135: the fix lies in the future of `t`. -/
def future (t : ℚ) (f : NavSatFix) : Prop := dadd t (fl 0.01) < f.header.stamp.toSec

instance (t : ℚ) (f : NavSatFix) : Decidable (stale t f) := by
  unfold stale; infer_instance

instance (t : ℚ) (f : NavSatFix) : Decidable (inWindow t f) := by
  unfold inWindow; infer_instance

instance (t : ℚ) (f : NavSatFix) : Decidable (future t f) := by
  unfold future; infer_instance

/-- Calls into the fusion engine. -/
def Event.isFusionCall : Event → Bool
  | Event.inputOdom _ _ _ => true
  | Event.inputGPS _ _ _ _ _ => true
  | Event.getGlobalOdom => true
  | _ => false

/-- Calls of `inputGPS`. -/
def Event.isInputGPS : Event → Bool
  | Event.inputGPS _ _ _ _ _ => true
  | _ => false

/-- The message of a publication on `global_odometry`. -/
def Event.publishedOdometry? : Event → Option Odometry
  | Event.pub_global_odometry odometry => some odometry
  | _ => none

/-- The fix appended by a `push`. -/
def Event.pushed? : Event → Option NavSatFix
  | Event.push GPS_msg => some GPS_msg
  | _ => none

/-- The fix removed by a `pop`. -/
def Event.popped? : Event → Option NavSatFix
  | Event.pop GPS_msg => some GPS_msg
  | _ => none

/-- Acquisitions of `m_buf`. -/
def Event.isLock : Event → Bool
  | Event.lock => true
  | _ => false

/-- Releases of `m_buf`. -/
def Event.isUnlock : Event → Bool
  | Event.unlock => true
  | _ => false

/-- The odometry sample of an input, if it is one. -/
def Input.sample? : Input → Option Odometry
  | Input.vio pose_msg => some pose_msg
  | Input.gps _ => none

/-- The fix of an input, if it is one. -/
def Input.fix? : Input → Option NavSatFix
  | Input.gps GPS_msg => some GPS_msg
  | Input.vio _ => none

/-- The events of a trace that happen while `m_buf` is held; `held` says
whether the mutex is held when the trace starts. -/
def underLock : Bool → List Event → List Event
  | _, [] => []
  | _, Event.lock :: es => underLock true es
  | _, Event.unlock :: es => underLock false es
  | held, e :: es => if held then e :: underLock held es else underLock held es

/-- The mutex is used correctly along a trace: never locked while held, never
unlocked while free, and free at the end. -/
def lockDiscipline : Bool → List Event → Bool
  | held, [] => !held
  | held, Event.lock :: es => !held && lockDiscipline true es
  | held, Event.unlock :: es => held && lockDiscipline false es
  | held, _ :: es => lockDiscipline held es

/-- The actions of the iterations that drop the fixes of `k` one by one. -/
def dropTrace : List NavSatFix → List Event
  | [] => []
  | f :: k => [Event.empty false, Event.front f, Event.pop f] ++ dropTrace k

/-- Closed form of the state in which the scan loop ends. -/
def scanResult {σ : Type} (E : GlobalOptimization σ) (t : ℚ) (s : LoopState σ) :
    LoopState σ :=
  let k := s.gpsQueue.takeWhile (fun f => decide (stale t f))
  match s.gpsQueue.dropWhile (fun f => decide (stale t f)) with
  | [] => { s with gpsQueue := [], trace := s.trace ++ dropTrace k ++ [Event.empty true] }
  | f :: tl =>
    if f.header.stamp.toSec ≤ dadd t (fl 0.01) then
      { globalEstimator :=
          E.inputGPS t f.latitude f.longitude f.altitude (pos_accuracy f) s.globalEstimator
        gpsQueue := tl
        matched := some f
        trace := s.trace ++ dropTrace k ++
          [Event.empty false, Event.front f,
           Event.inputGPS t f.latitude f.longitude f.altitude (pos_accuracy f), Event.pop f] }
    else
      { s with gpsQueue := f :: tl,
               trace := s.trace ++ dropTrace k ++ [Event.empty false, Event.front f] }

/-- Reference policy of the specification (section 4.2), written from its
words, in exact arithmetic with tolerance `0.01`: drop the maximal leading
run of fixes with `g < t - tau`; then, when the remaining buffer is non-empty
and its head has `g <= t + tau`, the head is the match and the tail is the new
buffer; otherwise there is no match and the remaining buffer is left as it
is.  The result is the match and the new buffer. -/
def referencePolicy (t : ℚ) (buffer : List NavSatFix) : Option NavSatFix × List NavSatFix :=
  let remaining := buffer.dropWhile (fun f => decide (f.header.stamp.toSec < t - 0.01))
  match remaining with
  | [] => (none, remaining)
  | head :: tail =>
    if head.header.stamp.toSec ≤ t + 0.01 then (some head, tail) else (none, remaining)

/-- The reference policy of the specification read on the times that the
stamps denote, in exact arithmetic with tolerance `0.01`: `g` is the time of
the stamp of the fix and `t` the time of the stamp of the sample. -/
def referencePolicyOnStamps (stamp : Time) (buffer : List NavSatFix) :
    Option NavSatFix × List NavSatFix :=
  let remaining :=
    buffer.dropWhile (fun f => decide (f.header.stamp.seconds < stamp.seconds - 0.01))
  match remaining with
  | [] => (none, remaining)
  | head :: tail =>
    if head.header.stamp.seconds ≤ stamp.seconds + 0.01 then (some head, tail)
    else (none, remaining)

/-- The reference policy with the two thresholds `lower` and `upper` in the
place of `t - tau` and `t + tau`. -/
def referencePolicyWith (lower upper : ℚ) (buffer : List NavSatFix) :
    Option NavSatFix × List NavSatFix :=
  let remaining := buffer.dropWhile (fun f => decide (f.header.stamp.toSec < lower))
  match remaining with
  | [] => (none, remaining)
  | head :: tail =>
    if head.header.stamp.toSec ≤ upper then (some head, tail) else (none, remaining)

/-! ## Facts about rounding -/

theorem rne_intCast (n : ℤ) : rne (n : ℚ) = n := by
  simp [rne]

theorem floor_le_rne (z : ℚ) : ⌊z⌋ ≤ rne z := by
  unfold rne; split_ifs <;> omega

theorem rne_le_floor_add_one (z : ℚ) : rne z ≤ ⌊z⌋ + 1 := by
  unfold rne; split_ifs <;> omega

theorem rne_mono {z w : ℚ} (h : z ≤ w) : rne z ≤ rne w := by
  rcases lt_or_eq_of_le (Int.floor_mono h) with hlt | heq
  · calc rne z ≤ ⌊z⌋ + 1 := rne_le_floor_add_one z
      _ ≤ ⌊w⌋ := hlt
      _ ≤ rne w := floor_le_rne w
  · have hf : z - ⌊z⌋ ≤ w - ⌊w⌋ := by rw [heq]; linarith
    unfold rne
    rw [heq]
    rw [heq] at hf
    split_ifs <;> first | omega | (exfalso; linarith)

theorem rne_eq_of_abs_lt {z : ℚ} {n : ℤ} (h : |z - n| < 1 / 2) : rne z = n := by
  rw [abs_lt] at h
  have h1 : n - 1 ≤ ⌊z⌋ := Int.le_floor.mpr (by push_cast; linarith)
  have h2 : ⌊z⌋ < n + 1 := Int.floor_lt.mpr (by push_cast; linarith)
  have h3 : ⌊z⌋ = n - 1 ∨ ⌊z⌋ = n := by omega
  unfold rne
  rcases h3 with h3 | h3
  · have hz : (⌊z⌋ : ℚ) = n - 1 := by rw [h3]; push_cast; ring
    rw [hz]
    rw [h3]
    split_ifs <;> first | omega | (exfalso; linarith)
  · have hz : (⌊z⌋ : ℚ) = n := by rw [h3]
    rw [hz]
    rw [h3]
    split_ifs <;> first | omega | (exfalso; linarith)

theorem two_zpow_pos (e : ℤ) : (0 : ℚ) < 2 ^ e := zpow_pos (by norm_num) e

theorem ulp_pos (x : ℚ) : 0 < ulp x := two_zpow_pos _

theorem binade_ge (x : ℚ) : -1022 ≤ binade x := le_max_right _ _

theorem lt_two_zpow_binade_succ (x : ℚ) : x < 2 ^ (binade x + 1) := by
  have h1 : x < ((2 : ℕ) : ℚ) ^ (Int.log 2 x + 1) := Int.lt_zpow_succ_log_self (by norm_num) x
  have h2 : ((2 : ℕ) : ℚ) ^ (Int.log 2 x + 1) ≤ ((2 : ℕ) : ℚ) ^ (binade x + 1) :=
    zpow_le_zpow_right₀ (by norm_num) (by unfold binade; have := le_max_left (Int.log 2 x) (-1022); omega)
  have h3 := lt_of_lt_of_le h1 h2
  simpa using h3

theorem two_zpow_binade_le {x : ℚ} (hx : 0 < x) (hb : -1022 < binade x) :
    2 ^ binade x ≤ x := by
  have hlog : binade x = Int.log 2 x := by
    unfold binade at hb ⊢
    rcases le_total (Int.log 2 x) (-1022) with h | h
    · rw [max_eq_right h] at hb; omega
    · exact max_eq_left h
  rw [hlog]
  have := @Int.zpow_log_le_self ℚ _ _ 2 x (by norm_num) hx
  simpa using this

theorem binade_mono {x y : ℚ} (hx : 0 < x) (h : x ≤ y) : binade x ≤ binade y :=
  max_le_max (Int.log_mono_right hx h) le_rfl

theorem binade_eq {x : ℚ} {e : ℤ} (he : -1022 ≤ e) (h1 : 2 ^ e ≤ x) (h2 : x < 2 ^ (e + 1)) :
    binade x = e := by
  have hx : 0 < x := lt_of_lt_of_le (two_zpow_pos e) h1
  have ha : e ≤ Int.log 2 x := (@Int.zpow_le_iff_le_log ℚ _ _ 2 (by norm_num) e x hx).mp (by simpa using h1)
  have hb : Int.log 2 x < e + 1 := (@Int.lt_zpow_iff_log_lt ℚ _ _ 2 (by norm_num) (e + 1) x hx).mp (by simpa using h2)
  unfold binade
  rw [max_eq_left (by omega)]
  omega

theorem roundAbs_zero : roundAbs 0 = 0 := by simp [roundAbs, rne]

theorem roundAbs_nonneg {x : ℚ} (hx : 0 ≤ x) : 0 ≤ roundAbs x := by
  unfold roundAbs
  have h0 : rne (0 : ℚ) ≤ rne (x / ulp x) := rne_mono (div_nonneg hx (ulp_pos x).le)
  have h1 : rne (0 : ℚ) = 0 := by simpa using rne_intCast 0
  rw [h1] at h0
  exact mul_nonneg (by exact_mod_cast h0) (ulp_pos x).le

/-- Rounding at a given exponent. -/
theorem roundAbs_of_binade {x : ℚ} {e : ℤ} (h : binade x = e) :
    roundAbs x = rne (x / 2 ^ (e - 52)) * 2 ^ (e - 52) := by
  unfold roundAbs ulp; rw [h]

theorem two_zpow_succ_eq (b : ℤ) : (2 : ℚ) ^ (b + 1) = ((2 ^ 53 : ℤ) : ℚ) * 2 ^ (b - 52) := by
  rw [show b + 1 = 53 + (b - 52) by ring, zpow_add₀ (by norm_num : (2 : ℚ) ≠ 0)]
  norm_num

theorem two_zpow_eq (b : ℤ) : (2 : ℚ) ^ b = ((2 ^ 52 : ℤ) : ℚ) * 2 ^ (b - 52) := by
  rw [show b = 52 + (b - 52) by ring, zpow_add₀ (by norm_num : (2 : ℚ) ≠ 0)]
  norm_num

theorem roundAbs_le_two_zpow (x : ℚ) : roundAbs x ≤ 2 ^ (binade x + 1) := by
  unfold roundAbs
  have hu := ulp_pos x
  have h1 : x / ulp x ≤ ((2 ^ 53 : ℤ) : ℚ) := by
    rw [div_le_iff₀ hu]
    have h2 := (lt_two_zpow_binade_succ x).le
    have h3 : (2 : ℚ) ^ (binade x + 1) = ((2 ^ 53 : ℤ) : ℚ) * ulp x :=
      two_zpow_succ_eq (binade x)
    rw [← h3]; exact h2
  have h4 := rne_mono h1
  rw [rne_intCast] at h4
  have h5 : (rne (x / ulp x) : ℚ) ≤ ((2 ^ 53 : ℤ) : ℚ) := by exact_mod_cast h4
  calc (rne (x / ulp x) : ℚ) * ulp x ≤ ((2 ^ 53 : ℤ) : ℚ) * ulp x :=
        mul_le_mul_of_nonneg_right h5 hu.le
    _ = 2 ^ (binade x + 1) := (two_zpow_succ_eq (binade x)).symm

theorem two_zpow_le_roundAbs {x : ℚ} (hx : 0 < x) (hb : -1022 < binade x) :
    2 ^ binade x ≤ roundAbs x := by
  unfold roundAbs
  have hu := ulp_pos x
  have h3 : (2 : ℚ) ^ binade x = ((2 ^ 52 : ℤ) : ℚ) * ulp x := two_zpow_eq (binade x)
  have h1 : ((2 ^ 52 : ℤ) : ℚ) ≤ x / ulp x := by
    rw [le_div_iff₀ hu, ← h3]
    exact two_zpow_binade_le hx hb
  have h4 := rne_mono h1
  rw [rne_intCast] at h4
  have h5 : ((2 ^ 52 : ℤ) : ℚ) ≤ (rne (x / ulp x) : ℚ) := by exact_mod_cast h4
  rw [h3]
  exact mul_le_mul_of_nonneg_right h5 hu.le

theorem roundAbs_mono {x y : ℚ} (hx : 0 ≤ x) (h : x ≤ y) : roundAbs x ≤ roundAbs y := by
  rcases eq_or_lt_of_le hx with h0 | hpos
  · rw [← h0, roundAbs_zero]; exact roundAbs_nonneg (le_trans hx h)
  · rcases eq_or_lt_of_le (binade_mono hpos h) with he | hlt
    · unfold roundAbs ulp
      rw [he]
      have hu := two_zpow_pos (binade y - 52)
      have := rne_mono (div_le_div_of_nonneg_right h hu.le)
      exact mul_le_mul_of_nonneg_right (by exact_mod_cast this) hu.le
    · calc roundAbs x ≤ 2 ^ (binade x + 1) := roundAbs_le_two_zpow x
        _ ≤ 2 ^ binade y := zpow_le_zpow_right₀ (by norm_num) (by omega)
        _ ≤ roundAbs y :=
          two_zpow_le_roundAbs (lt_of_lt_of_le hpos h) (by have := binade_ge x; omega)

theorem fl_mono {x y : ℚ} (h : x ≤ y) : fl x ≤ fl y := by
  unfold fl
  split_ifs with hx hy hy
  · exact roundAbs_mono hx h
  · exact absurd (le_trans hx h) hy
  · have h1 := roundAbs_nonneg (x := -x) (by linarith)
    have h2 := roundAbs_nonneg hy
    linarith
  · have := roundAbs_mono (x := -y) (y := -x) (by linarith) (by linarith)
    linarith

theorem fl_zero : fl 0 = 0 := by simp [fl, roundAbs_zero]

theorem fl_nonneg {x : ℚ} (hx : 0 ≤ x) : 0 ≤ fl x := by
  have := fl_mono hx; rwa [fl_zero] at this

/-- Evaluation of `fl` at a positive number: `e` is the exponent of its
binade and `n` the integer nearest to it in units of `2 ^ (e - 52)`. -/
theorem fl_eq_of_near {x : ℚ} (e n : ℤ) (he : -1022 ≤ e) (h1 : 2 ^ e ≤ x)
    (h2 : x < 2 ^ (e + 1)) (hn : |x / 2 ^ (e - 52) - n| < 1 / 2) :
    fl x = n * 2 ^ (e - 52) := by
  have hx : 0 ≤ x := le_trans (two_zpow_pos e).le h1
  unfold fl
  rw [if_pos hx, roundAbs_of_binade (binade_eq he h1 h2), rne_eq_of_abs_lt hn]

theorem roundAbs_of_int_mul {v : ℚ} (k : ℤ) (h : v = k * ulp v) : roundAbs v = v := by
  unfold roundAbs
  have hu := ulp_pos v
  have hk : v / ulp v = (k : ℚ) := by
    rw [div_eq_iff hu.ne']; exact h
  rw [hk, rne_intCast]
  exact h.symm

theorem roundAbs_idem {x : ℚ} (hx : 0 ≤ x) : roundAbs (roundAbs x) = roundAbs x := by
  have hv0 := roundAbs_nonneg hx
  rcases eq_or_lt_of_le hv0 with h0 | hpos
  · rw [← h0, roundAbs_zero]
  · rcases le_or_lt (binade (roundAbs x)) (binade x) with hb | hb
    · apply roundAbs_of_int_mul (rne (x / ulp x) * 2 ^ (binade x - binade (roundAbs x)).toNat)
      have hnat : ((binade x - binade (roundAbs x)).toNat : ℤ) =
          binade x - binade (roundAbs x) := Int.toNat_of_nonneg (by omega)
      have hpow : ((2 : ℚ) ^ (binade x - binade (roundAbs x)).toNat) =
          (2 : ℚ) ^ (binade x - binade (roundAbs x)) := by
        rw [← zpow_natCast, hnat]
      push_cast
      rw [hpow]
      conv_lhs => unfold roundAbs
      unfold ulp
      rw [mul_assoc, ← zpow_add₀ (by norm_num : (2 : ℚ) ≠ 0)]
      congr 2
      ring
    · have h1 : (2 : ℚ) ^ binade (roundAbs x) ≤ roundAbs x :=
        two_zpow_binade_le hpos (by have := binade_ge x; omega)
      have h2 : roundAbs x ≤ 2 ^ (binade x + 1) := roundAbs_le_two_zpow x
      have h3 : (2 : ℚ) ^ (binade x + 1) ≤ 2 ^ binade (roundAbs x) :=
        zpow_le_zpow_right₀ (by norm_num) (by omega)
      have hv : roundAbs x = 2 ^ binade (roundAbs x) := le_antisymm (by linarith) h1
      apply roundAbs_of_int_mul (2 ^ 52)
      conv_lhs => rw [hv]
      exact two_zpow_eq _

theorem fl_idem (x : ℚ) : fl (fl x) = fl x := by
  unfold fl
  by_cases hx : 0 ≤ x
  · rw [if_pos hx, if_pos (roundAbs_nonneg hx), roundAbs_idem hx]
  · rw [if_neg hx]
    have hx' : 0 ≤ -x := by linarith
    have hv := roundAbs_nonneg hx'
    rcases eq_or_lt_of_le hv with h0 | hpos
    · rw [← h0]; simp [roundAbs_zero]
    · rw [if_neg (by linarith), neg_neg, roundAbs_idem hx']

/-- A representable number below `y` is below the rounding of `y`. -/
theorem le_fl_of_le {g y : ℚ} (hg : fl g = g) (h : g ≤ y) : g ≤ fl y := by
  have := fl_mono h; rwa [hg] at this

theorem fl_le_of_le {g y : ℚ} (hg : fl g = g) (h : y ≤ g) : fl y ≤ g := by
  have := fl_mono h; rwa [hg] at this

theorem fl_neg (x : ℚ) : fl (-x) = -fl x := by
  unfold fl
  rcases lt_trichotomy x 0 with h | h | h
  · rw [if_pos (by linarith), if_neg (by linarith)]; simp
  · subst h; simp [roundAbs_zero]
  · rw [if_neg (by linarith), if_pos (by linarith)]; simp


theorem fl_natCast (n : ℕ) (h : n < 2 ^ 53) : fl (n : ℚ) = n := by
  rcases Nat.eq_zero_or_pos n with h0 | hpos
  · subst h0; simp [fl_zero]
  · have hx : (0 : ℚ) < n := by exact_mod_cast hpos
    have hlt : (n : ℚ) < ((2 : ℕ) : ℚ) ^ (53 : ℤ) := by
      have h1 : (n : ℚ) < ((2 ^ 53 : ℕ) : ℚ) := by exact_mod_cast h
      have h2 : (((2 : ℕ) : ℚ) ^ (53 : ℤ)) = ((2 ^ 53 : ℕ) : ℚ) := by norm_num
      rw [h2]; exact h1
    have hlog : Int.log 2 (n : ℚ) < 53 :=
      (@Int.lt_zpow_iff_log_lt ℚ _ _ 2 (by norm_num) 53 (n : ℚ) hx).mp hlt
    have hb : binade (n : ℚ) ≤ 52 := by
      unfold binade
      exact max_le (by omega) (by norm_num)
    unfold fl
    rw [if_pos hx.le]
    apply roundAbs_of_int_mul ((n : ℤ) * 2 ^ (52 - binade (n : ℚ)).toNat)
    have hnat : ((52 - binade (n : ℚ)).toNat : ℤ) = 52 - binade (n : ℚ) :=
      Int.toNat_of_nonneg (by omega)
    have hpow : ((2 : ℚ) ^ (52 - binade (n : ℚ)).toNat) = (2 : ℚ) ^ (52 - binade (n : ℚ)) := by
      rw [← zpow_natCast, hnat]
    push_cast
    rw [hpow]
    unfold ulp
    rw [mul_assoc, ← zpow_add₀ (by norm_num : (2 : ℚ) ≠ 0)]
    have : (52 - binade (n : ℚ)) + (binade (n : ℚ) - 52) = 0 := by ring
    rw [this, zpow_zero, mul_one]


theorem rne_eq_of_tie {z : ℚ} {n : ℤ} (h : z - n = 1 / 2 ∨ z - n = -(1 / 2))
    (hn : n % 2 = 0) : rne z = n := by
  rcases h with h1 | h1
  · have hz : z = n + 1 / 2 := by linarith
    have hfl : ⌊z⌋ = n := by
      rw [Int.floor_eq_iff]; constructor <;> rw [hz] <;> linarith
    unfold rne
    rw [hfl, hz]
    norm_num [hn]
  · have hz : z = (n - 1 : ℤ) + 1 / 2 := by push_cast; linarith
    have hfl : ⌊z⌋ = n - 1 := by
      rw [Int.floor_eq_iff]; constructor <;> rw [hz] <;> push_cast <;> linarith
    have hodd : (n - 1) % 2 ≠ 0 := by omega
    unfold rne
    rw [hfl, hz]
    norm_num [hodd]

/-- Evaluation of `fl` at a positive number half way between two doubles:
`n`, the even one of the two nearest integers in units of `2 ^ (e - 52)`, is
chosen. -/
theorem fl_eq_of_tie {x : ℚ} (e n : ℤ) (he : -1022 ≤ e) (h1 : 2 ^ e ≤ x)
    (h2 : x < 2 ^ (e + 1))
    (hn : x / 2 ^ (e - 52) - n = 1 / 2 ∨ x / 2 ^ (e - 52) - n = -(1 / 2))
    (heven : n % 2 = 0) :
    fl x = n * 2 ^ (e - 52) := by
  have hx : 0 ≤ x := le_trans (two_zpow_pos e).le h1
  unfold fl
  rw [if_pos hx, roundAbs_of_binade (binade_eq he h1 h2), rne_eq_of_tie hn heven]

/-! ## Values of the doubles used in the scenarios -/

/-- The double `0.01`. -/
theorem fl_tol : fl 0.01 = 5764607523034235 / 576460752303423488 :=
  (fl_eq_of_near (-7) 5764607523034235 (by norm_num) (by norm_num) (by norm_num)
    (by norm_num [abs_lt])).trans (by norm_num)

/-- The double `1e-9`. -/
theorem fl_nano : fl 1e-9 = 4835703278458517 / 4835703278458516698824704 :=
  (fl_eq_of_near (-30) 4835703278458517 (by norm_num) (by norm_num) (by norm_num)
    (by norm_num [abs_lt])).trans (by norm_num)

/-- The double `0.01` is a double. -/
theorem fl_tol_self : fl (5764607523034235 / 576460752303423488) = 5764607523034235 / 576460752303423488 :=
  (fl_eq_of_near (-7) 5764607523034235 (by norm_num) (by norm_num) (by norm_num)
    (by norm_num [abs_lt])).trans (by norm_num)

/-- The double `0.01 + 0.01`. -/
theorem fl_two_tol : fl (5764607523034235 / 576460752303423488 + 5764607523034235 / 576460752303423488) = 5764607523034235 / 288230376151711744 :=
  (fl_eq_of_near (-6) 5764607523034235 (by norm_num) (by norm_num) (by norm_num)
    (by norm_num [abs_lt])).trans (by norm_num)

/-- The member function `toSec()` on given seconds and nanoseconds: `p` is the
rounded product `1e-9 * nsec` and `v` the rounded sum. -/
theorem toSec_mk (s n : ℕ) (p v : ℚ) (hs : s < 2 ^ 53) (hn : n < 2 ^ 53)
    (hp : fl (4835703278458517 / 4835703278458516698824704 * (n : ℚ)) = p) (hv : fl ((s : ℚ) + p) = v) :
    (Time.mk s n).toSec = v := by
  show fl (fl (s : ℚ) + fl (fl 1e-9 * fl (n : ℚ))) = v
  rw [fl_natCast s hs, fl_natCast n hn, fl_nano, hp, hv]

/-- The stamp of 0 s and 0 ns as a double: `0.0`. -/
theorem toSec_0_0 : (Time.mk 0 0).toSec = 0 :=
  toSec_mk 0 0 (0) (0) (by norm_num) (by norm_num)
    (by rw [Nat.cast_zero, mul_zero, fl_zero])
    (by rw [Nat.cast_zero, add_zero, fl_zero])

/-- The stamp of 0 s and 10000000 ns as a double: `0.01`. -/
theorem toSec_0_01 : (Time.mk 0 10000000).toSec = 5764607523034235 / 576460752303423488 :=
  toSec_mk 0 10000000 (5764607523034235 / 576460752303423488) (5764607523034235 / 576460752303423488) (by norm_num) (by norm_num)
    ((fl_eq_of_near (-7) 5764607523034235 (by norm_num) (by norm_num) (by norm_num)
    (by norm_num [abs_lt])).trans (by norm_num))
    ((fl_eq_of_near (-7) 5764607523034235 (by norm_num) (by norm_num) (by norm_num)
    (by norm_num [abs_lt])).trans (by norm_num))

/-- The stamp of 9 s and 0 ns as a double: `9.0`. -/
theorem toSec_9_0 : (Time.mk 9 0).toSec = 9 :=
  toSec_mk 9 0 (0) (9) (by norm_num) (by norm_num)
    (by rw [Nat.cast_zero, mul_zero, fl_zero])
    ((fl_eq_of_near 3 5066549580791808 (by norm_num) (by norm_num) (by norm_num)
    (by norm_num [abs_lt])).trans (by norm_num))

/-- The stamp of 9 s and 500000000 ns as a double: `9.5`. -/
theorem toSec_9_5 : (Time.mk 9 500000000).toSec = 19 / 2 :=
  toSec_mk 9 500000000 (1 / 2) (19 / 2) (by norm_num) (by norm_num)
    ((fl_eq_of_near (-1) 4503599627370496 (by norm_num) (by norm_num) (by norm_num)
    (by norm_num [abs_lt])).trans (by norm_num))
    ((fl_eq_of_near 3 5348024557502464 (by norm_num) (by norm_num) (by norm_num)
    (by norm_num [abs_lt])).trans (by norm_num))

/-- The stamp of 9 s and 995000000 ns as a double: `9.995000000000001`. -/
theorem toSec_9_995 : (Time.mk 9 995000000).toSec = 2813342392223007 / 281474976710656 :=
  toSec_mk 9 995000000 (1120270407308411 / 1125899906842624) (2813342392223007 / 281474976710656) (by norm_num) (by norm_num)
    ((fl_eq_of_near (-1) 8962163258467288 (by norm_num) (by norm_num) (by norm_num)
    (by norm_num [abs_lt])).trans (by norm_num))
    ((fl_eq_of_tie 3 5626684784446014 (by norm_num) (by norm_num) (by norm_num)
    (by norm_num) (by norm_num)).trans (by norm_num))

/-- The stamp of 10 s and 0 ns as a double: `10.0`. -/
theorem toSec_10_0 : (Time.mk 10 0).toSec = 10 :=
  toSec_mk 10 0 (0) (10) (by norm_num) (by norm_num)
    (by rw [Nat.cast_zero, mul_zero, fl_zero])
    ((fl_eq_of_near 3 5629499534213120 (by norm_num) (by norm_num) (by norm_num)
    (by norm_num [abs_lt])).trans (by norm_num))

/-- The stamp of 10 s and 1000000 ns as a double: `10.001`. -/
theorem toSec_10_001 : (Time.mk 10 1000000).toSec = 5630062484166541 / 562949953421312 :=
  toSec_mk 10 1000000 (1152921504606847 / 1152921504606846976) (5630062484166541 / 562949953421312) (by norm_num) (by norm_num)
    ((fl_eq_of_near (-10) 4611686018427388 (by norm_num) (by norm_num) (by norm_num)
    (by norm_num [abs_lt])).trans (by norm_num))
    ((fl_eq_of_near 3 5630062484166541 (by norm_num) (by norm_num) (by norm_num)
    (by norm_num [abs_lt])).trans (by norm_num))

/-- The stamp of 10 s and 4000000 ns as a double: `10.004`. -/
theorem toSec_10_004 : (Time.mk 10 4000000).toSec = 5631751334026805 / 562949953421312 :=
  toSec_mk 10 4000000 (1152921504606847 / 288230376151711744) (5631751334026805 / 562949953421312) (by norm_num) (by norm_num)
    ((fl_eq_of_near (-8) 4611686018427388 (by norm_num) (by norm_num) (by norm_num)
    (by norm_num [abs_lt])).trans (by norm_num))
    ((fl_eq_of_near 3 5631751334026805 (by norm_num) (by norm_num) (by norm_num)
    (by norm_num [abs_lt])).trans (by norm_num))

/-- The stamp of 10 s and 5000000 ns as a double: `10.005`. -/
theorem toSec_10_005 : (Time.mk 10 5000000).toSec = 5632314283980227 / 562949953421312 :=
  toSec_mk 10 5000000 (5764607523034235 / 1152921504606846976) (5632314283980227 / 562949953421312) (by norm_num) (by norm_num)
    ((fl_eq_of_near (-8) 5764607523034235 (by norm_num) (by norm_num) (by norm_num)
    (by norm_num [abs_lt])).trans (by norm_num))
    ((fl_eq_of_near 3 5632314283980227 (by norm_num) (by norm_num) (by norm_num)
    (by norm_num [abs_lt])).trans (by norm_num))

/-- The stamp of 10 s and 500000000 ns as a double: `10.5`. -/
theorem toSec_10_5 : (Time.mk 10 500000000).toSec = 21 / 2 :=
  toSec_mk 10 500000000 (1 / 2) (21 / 2) (by norm_num) (by norm_num)
    ((fl_eq_of_near (-1) 4503599627370496 (by norm_num) (by norm_num) (by norm_num)
    (by norm_num [abs_lt])).trans (by norm_num))
    ((fl_eq_of_near 3 5910974510923776 (by norm_num) (by norm_num) (by norm_num)
    (by norm_num [abs_lt])).trans (by norm_num))

/-- The double `10.0 - 0.01`. -/
theorem fl_sub_10 : fl (10 - 5764607523034235 / 576460752303423488) = 5623870034678907 / 562949953421312 :=
  (fl_eq_of_near 3 5623870034678907 (by norm_num) (by norm_num) (by norm_num)
    (by norm_num [abs_lt])).trans (by norm_num)

/-- The double `10.0 + 0.01`. -/
theorem fl_add_10 : fl (10 + 5764607523034235 / 576460752303423488) = 5635129033747333 / 562949953421312 :=
  (fl_eq_of_near 3 5635129033747333 (by norm_num) (by norm_num) (by norm_num)
    (by norm_num [abs_lt])).trans (by norm_num)

/-- The double `9.5 - 0.01`. -/
theorem fl_sub_9_5 : fl (19 / 2 - 5764607523034235 / 576460752303423488) = 5342395057968251 / 562949953421312 :=
  (fl_eq_of_near 3 5342395057968251 (by norm_num) (by norm_num) (by norm_num)
    (by norm_num [abs_lt])).trans (by norm_num)

/-- The double `9.5 + 0.01`. -/
theorem fl_add_9_5 : fl (19 / 2 + 5764607523034235 / 576460752303423488) = 5353654057036677 / 562949953421312 :=
  (fl_eq_of_near 3 5353654057036677 (by norm_num) (by norm_num) (by norm_num)
    (by norm_num [abs_lt])).trans (by norm_num)

/-- The stamp of 8 s and 572000000 ns as a double: `8.572`. -/
theorem toSec_8_572 : (Time.mk 8 572000000).toSec = 2412803500363743 / 281474976710656 :=
  toSec_mk 8 572000000 (644014746713981 / 1125899906842624) (2412803500363743 / 281474976710656) (by norm_num) (by norm_num)
    ((fl_eq_of_near (-1) 5152117973711848 (by norm_num) (by norm_num) (by norm_num)
    (by norm_num [abs_lt])).trans (by norm_num))
    ((fl_eq_of_tie 3 4825607000727486 (by norm_num) (by norm_num) (by norm_num)
    (by norm_num) (by norm_num)).trans (by norm_num))

/-- The stamp of 8 s and 580000000 ns as a double: `8.58`. -/
theorem toSec_8_58 : (Time.mk 8 580000000).toSec = 4830110600354857 / 562949953421312 :=
  toSec_mk 8 580000000 (326510972984361 / 562949953421312) (4830110600354857 / 562949953421312) (by norm_num) (by norm_num)
    ((fl_eq_of_near (-1) 5224175567749776 (by norm_num) (by norm_num) (by norm_num)
    (by norm_num [abs_lt])).trans (by norm_num))
    ((fl_eq_of_near 3 4830110600354857 (by norm_num) (by norm_num) (by norm_num)
    (by norm_num [abs_lt])).trans (by norm_num))

/-- The stamp of 8 s and 582000000 ns as a double: `8.582`. -/
theorem toSec_8_582 : (Time.mk 8 582000000).toSec = 1207809125065425 / 140737488355328 :=
  toSec_mk 8 582000000 (2621094983129629 / 4503599627370496) (1207809125065425 / 140737488355328) (by norm_num) (by norm_num)
    ((fl_eq_of_near (-1) 5242189966259258 (by norm_num) (by norm_num) (by norm_num)
    (by norm_num [abs_lt])).trans (by norm_num))
    ((fl_eq_of_near 3 4831236500261700 (by norm_num) (by norm_num) (by norm_num)
    (by norm_num [abs_lt])).trans (by norm_num))

/-- The stamp of 8 s and 600000000 ns as a double: `8.6`. -/
theorem toSec_8_6 : (Time.mk 8 600000000).toSec = 4841369599423283 / 562949953421312 :=
  toSec_mk 8 600000000 (1351079888211149 / 2251799813685248) (4841369599423283 / 562949953421312) (by norm_num) (by norm_num)
    ((fl_eq_of_near (-1) 5404319552844596 (by norm_num) (by norm_num) (by norm_num)
    (by norm_num [abs_lt])).trans (by norm_num))
    ((fl_eq_of_near 3 4841369599423283 (by norm_num) (by norm_num) (by norm_num)
    (by norm_num [abs_lt])).trans (by norm_num))

/-- The stamp of 35 s and 248000000 ns as a double: `35.248`. -/
theorem toSec_35_248 : (Time.mk 35 248000000).toSec = 4960714989548601 / 140737488355328 :=
  toSec_mk 35 248000000 (8935141660703065 / 36028797018963968) (4960714989548601 / 140737488355328) (by norm_num) (by norm_num)
    ((fl_eq_of_near (-3) 8935141660703065 (by norm_num) (by norm_num) (by norm_num)
    (by norm_num [abs_lt])).trans (by norm_num))
    ((fl_eq_of_near 5 4960714989548601 (by norm_num) (by norm_num) (by norm_num)
    (by norm_num [abs_lt])).trans (by norm_num))

/-- The stamp of 35 s and 258000000 ns as a double: `35.258`. -/
theorem toSec_35_258 : (Time.mk 35 258000000).toSec = 4962122364432155 / 140737488355328 :=
  toSec_mk 35 258000000 (290482175965397 / 1125899906842624) (4962122364432155 / 140737488355328) (by norm_num) (by norm_num)
    ((fl_eq_of_near (-2) 4647714815446352 (by norm_num) (by norm_num) (by norm_num)
    (by norm_num [abs_lt])).trans (by norm_num))
    ((fl_eq_of_near 5 4962122364432155 (by norm_num) (by norm_num) (by norm_num)
    (by norm_num [abs_lt])).trans (by norm_num))

/-- The stamp of 1700000000 s and 0 ns as a double: `1700000000.0`. -/
theorem toSec_epoch : (Time.mk 1700000000 0).toSec = 1700000000 :=
  toSec_mk 1700000000 0 (0) (1700000000) (by norm_num) (by norm_num)
    (by rw [Nat.cast_zero, mul_zero, fl_zero])
    ((fl_eq_of_near 30 7130316800000000 (by norm_num) (by norm_num) (by norm_num)
    (by norm_num [abs_lt])).trans (by norm_num))

/-- The stamp of 1700000000 s and 10000001 ns as a double: `1700000000.01`. -/
theorem toSec_epoch_after : (Time.mk 1700000000 10000001).toSec = 7130316800041943 / 4194304 :=
  toSec_mk 1700000000 10000001 (1441152024873747 / 144115188075855872) (7130316800041943 / 4194304) (by norm_num) (by norm_num)
    ((fl_eq_of_near (-7) 5764608099494988 (by norm_num) (by norm_num) (by norm_num)
    (by norm_num [abs_lt])).trans (by norm_num))
    ((fl_eq_of_near 30 7130316800041943 (by norm_num) (by norm_num) (by norm_num)
    (by norm_num [abs_lt])).trans (by norm_num))

/-- The stamp of 1699999999 s and 989999900 ns as a double: `1699999999.99`. -/
theorem toSec_epoch_before : (Time.mk 1699999999 989999900).toSec = 7130316799958057 / 4194304 :=
  toSec_mk 1699999999 989999900 (8917126361473657 / 9007199254740992) (7130316799958057 / 4194304) (by norm_num) (by norm_num)
    ((fl_eq_of_near (-1) 8917126361473657 (by norm_num) (by norm_num) (by norm_num)
    (by norm_num [abs_lt])).trans (by norm_num))
    ((fl_eq_of_near 30 7130316799958057 (by norm_num) (by norm_num) (by norm_num)
    (by norm_num [abs_lt])).trans (by norm_num))

/-- The double `8.582 - 0.01`. -/
theorem fl_sub_8_582 : fl (1207809125065425 / 140737488355328 - 5764607523034235 / 576460752303423488) = 4825607000727487 / 562949953421312 :=
  (fl_eq_of_near 3 4825607000727487 (by norm_num) (by norm_num) (by norm_num)
    (by norm_num [abs_lt])).trans (by norm_num)

/-- The double `8.582 + 0.01`. -/
theorem fl_add_8_582 : fl (1207809125065425 / 140737488355328 + 5764607523034235 / 576460752303423488) = 4836865999795913 / 562949953421312 :=
  (fl_eq_of_near 3 4836865999795913 (by norm_num) (by norm_num) (by norm_num)
    (by norm_num [abs_lt])).trans (by norm_num)

/-- The double `35.248 - 0.01`. -/
theorem fl_sub_35_248 : fl (4960714989548601 / 140737488355328 - 5764607523034235 / 576460752303423488) = 619913451833131 / 17592186044416 :=
  (fl_eq_of_near 5 4959307614665048 (by norm_num) (by norm_num) (by norm_num)
    (by norm_num [abs_lt])).trans (by norm_num)

/-- The double `35.248 + 0.01`. -/
theorem fl_add_35_248 : fl (4960714989548601 / 140737488355328 + 5764607523034235 / 576460752303423488) = 2481061182216077 / 70368744177664 :=
  (fl_eq_of_near 5 4962122364432154 (by norm_num) (by norm_num) (by norm_num)
    (by norm_num [abs_lt])).trans (by norm_num)

/-- The double `1700000000.0 - 0.01`. -/
theorem fl_sub_epoch : fl (1700000000 - 5764607523034235 / 576460752303423488) = 7130316799958057 / 4194304 :=
  (fl_eq_of_near 30 7130316799958057 (by norm_num) (by norm_num) (by norm_num)
    (by norm_num [abs_lt])).trans (by norm_num)

/-- The double `1700000000.0 + 0.01`. -/
theorem fl_add_epoch : fl (1700000000 + 5764607523034235 / 576460752303423488) = 7130316800041943 / 4194304 :=
  (fl_eq_of_near 30 7130316800041943 (by norm_num) (by norm_num) (by norm_num)
    (by norm_num [abs_lt])).trans (by norm_num)

/-! ## Stamps and thresholds of the scenarios -/

theorem stamp_0_0 : (fixAt 0 0).header.stamp.toSec = 0 := toSec_0_0

theorem stamp_0_01 : (fixAt 0 10000000).header.stamp.toSec = 5764607523034235 / 576460752303423488 := toSec_0_01

theorem stamp_9_0 : (fixAt 9 0).header.stamp.toSec = 9 := toSec_9_0

theorem stamp_9_5 : (fixAt 9 500000000).header.stamp.toSec = 19 / 2 := toSec_9_5

theorem stamp_9_995 : (fixAt 9 995000000).header.stamp.toSec = 2813342392223007 / 281474976710656 := toSec_9_995

theorem stamp_10_0 : (fixAt 10 0).header.stamp.toSec = 10 := toSec_10_0

theorem stamp_10_001 : (fixAt 10 1000000).header.stamp.toSec = 5630062484166541 / 562949953421312 := toSec_10_001

theorem stamp_10_004 : (fixAt 10 4000000).header.stamp.toSec = 5631751334026805 / 562949953421312 := toSec_10_004

theorem stamp_10_005 : (fixAt 10 5000000).header.stamp.toSec = 5632314283980227 / 562949953421312 := toSec_10_005

theorem stamp_10_5 : (fixAt 10 500000000).header.stamp.toSec = 21 / 2 := toSec_10_5

theorem time_10 : (odomAt 10 0).header.stamp.toSec = 10 := toSec_10_0

theorem time_9_5 : (odomAt 9 500000000).header.stamp.toSec = 19 / 2 := toSec_9_5

theorem time_9 : (odomAt 9 0).header.stamp.toSec = 9 := toSec_9_0

theorem time_0 : (odomAt 0 0).header.stamp.toSec = 0 := toSec_0_0

theorem time_0_01 : (odomAt 0 10000000).header.stamp.toSec = 5764607523034235 / 576460752303423488 := toSec_0_01

theorem lower_10 : dsub (10) (fl 0.01) = 5623870034678907 / 562949953421312 := by
  show fl (10 - fl 0.01) = _
  rw [fl_tol]; exact fl_sub_10

theorem upper_10 : dadd (10) (fl 0.01) = 5635129033747333 / 562949953421312 := by
  show fl (10 + fl 0.01) = _
  rw [fl_tol]; exact fl_add_10

theorem lower_9_5 : dsub (19 / 2) (fl 0.01) = 5342395057968251 / 562949953421312 := by
  show fl (19 / 2 - fl 0.01) = _
  rw [fl_tol]; exact fl_sub_9_5

theorem upper_9_5 : dadd (19 / 2) (fl 0.01) = 5353654057036677 / 562949953421312 := by
  show fl (19 / 2 + fl 0.01) = _
  rw [fl_tol]; exact fl_add_9_5

theorem lower_0 : dsub 0 (fl 0.01) = -(5764607523034235 / 576460752303423488) := by
  show fl (0 - fl 0.01) = _
  rw [fl_tol, zero_sub, fl_neg, fl_tol_self]

theorem upper_0 : dadd 0 (fl 0.01) = 5764607523034235 / 576460752303423488 := by
  show fl (0 + fl 0.01) = _
  rw [fl_tol, zero_add, fl_tol_self]

theorem lower_tol : dsub (5764607523034235 / 576460752303423488) (fl 0.01) = 0 := by
  show fl (5764607523034235 / 576460752303423488 - fl 0.01) = _
  rw [fl_tol, sub_self, fl_zero]

theorem upper_tol : dadd (5764607523034235 / 576460752303423488) (fl 0.01) = 5764607523034235 / 288230376151711744 := by
  show fl (5764607523034235 / 576460752303423488 + fl 0.01) = _
  rw [fl_tol]; exact fl_two_tol

theorem stamp_8_572 : (fixAt 8 572000000).header.stamp.toSec = 2412803500363743 / 281474976710656 := toSec_8_572

theorem stamp_8_58 : (fixAt 8 580000000).header.stamp.toSec = 4830110600354857 / 562949953421312 := toSec_8_58

theorem stamp_8_6 : (fixAt 8 600000000).header.stamp.toSec = 4841369599423283 / 562949953421312 := toSec_8_6

theorem stamp_35_258 : (fixAt 35 258000000).header.stamp.toSec = 4962122364432155 / 140737488355328 := toSec_35_258

theorem stamp_epoch_after : (fixAt 1700000000 10000001).header.stamp.toSec = 7130316800041943 / 4194304 := toSec_epoch_after

theorem stamp_epoch_before : (fixAt 1699999999 989999900).header.stamp.toSec = 7130316799958057 / 4194304 := toSec_epoch_before

theorem time_8_582 : (odomAt 8 582000000).header.stamp.toSec = 1207809125065425 / 140737488355328 := toSec_8_582

theorem time_35_248 : (odomAt 35 248000000).header.stamp.toSec = 4960714989548601 / 140737488355328 := toSec_35_248

theorem time_epoch : (odomAt 1700000000 0).header.stamp.toSec = 1700000000 := toSec_epoch

theorem lower_8_582 : dsub (1207809125065425 / 140737488355328) (fl 0.01) = 4825607000727487 / 562949953421312 := by
  show fl (1207809125065425 / 140737488355328 - fl 0.01) = _
  rw [fl_tol]; exact fl_sub_8_582

theorem upper_8_582 : dadd (1207809125065425 / 140737488355328) (fl 0.01) = 4836865999795913 / 562949953421312 := by
  show fl (1207809125065425 / 140737488355328 + fl 0.01) = _
  rw [fl_tol]; exact fl_add_8_582

theorem lower_35_248 : dsub (4960714989548601 / 140737488355328) (fl 0.01) = 619913451833131 / 17592186044416 := by
  show fl (4960714989548601 / 140737488355328 - fl 0.01) = _
  rw [fl_tol]; exact fl_sub_35_248

theorem upper_35_248 : dadd (4960714989548601 / 140737488355328) (fl 0.01) = 2481061182216077 / 70368744177664 := by
  show fl (4960714989548601 / 140737488355328 + fl 0.01) = _
  rw [fl_tol]; exact fl_add_35_248

theorem lower_epoch : dsub (1700000000) (fl 0.01) = 7130316799958057 / 4194304 := by
  show fl (1700000000 - fl 0.01) = _
  rw [fl_tol]; exact fl_sub_epoch

theorem upper_epoch : dadd (1700000000) (fl 0.01) = 7130316800041943 / 4194304 := by
  show fl (1700000000 + fl 0.01) = _
  rw [fl_tol]; exact fl_add_epoch

theorem pos_accuracy_fixAt (sec nsec : Nat) : pos_accuracy (fixAt sec nsec) = 1 := by
  simp [pos_accuracy, fixAt, Double.le, OfNat.ofNat]

/-! ## Basic facts about the loop -/

theorem loopBody_of_inWindow {σ : Type} (E : GlobalOptimization σ) (t : ℚ) (s : LoopState σ)
    (f : NavSatFix) (rest : List NavSatFix) (h : inWindow t f) :
    loopBody E t s f rest =
      (Ctl.brk,
       { globalEstimator :=
           E.inputGPS t f.latitude f.longitude f.altitude (pos_accuracy f) s.globalEstimator
         gpsQueue := rest
         matched := some f
         trace := s.trace ++ [Event.empty false, Event.front f] ++
           [Event.inputGPS t f.latitude f.longitude f.altitude (pos_accuracy f),
            Event.pop f] }) := by
  have h1 : f.header.stamp.toSec ≥ dsub t (fl 0.01) ∧ f.header.stamp.toSec ≤ dadd t (fl 0.01) := h
  simp only [loopBody, h1, and_self, if_true]

theorem loopBody_of_stale {σ : Type} (E : GlobalOptimization σ) (t : ℚ) (s : LoopState σ)
    (f : NavSatFix) (rest : List NavSatFix) (h : stale t f) :
    loopBody E t s f rest =
      (Ctl.next,
       { s with gpsQueue := rest,
                trace := s.trace ++ [Event.empty false, Event.front f] ++ [Event.pop f] }) := by
  have h1 : f.header.stamp.toSec < dsub t (fl 0.01) := h
  have h2 : ¬ (f.header.stamp.toSec ≥ dsub t (fl 0.01) ∧ f.header.stamp.toSec ≤ dadd t (fl 0.01)) :=
    fun hc => absurd h1 (not_lt.mpr hc.1)
  simp only [loopBody, h1, h2, if_true, if_false]

theorem loopBody_of_future {σ : Type} (E : GlobalOptimization σ) (t : ℚ) (s : LoopState σ)
    (f : NavSatFix) (rest : List NavSatFix) (h0 : ¬ stale t f) (h : future t f) :
    loopBody E t s f rest =
      (Ctl.brk,
       { s with gpsQueue := f :: rest,
                trace := s.trace ++ [Event.empty false, Event.front f] }) := by
  have h1 : f.header.stamp.toSec > dadd t (fl 0.01) := h
  have h2 : ¬ (f.header.stamp.toSec ≥ dsub t (fl 0.01) ∧ f.header.stamp.toSec ≤ dadd t (fl 0.01)) :=
    fun hc => absurd h1 (not_lt.mpr hc.2)
  have h3 : ¬ f.header.stamp.toSec < dsub t (fl 0.01) := h0
  simp only [loopBody, h1, h2, h3, if_true, if_false]

/-- The three tests of the loop body cover every time stamp. -/
theorem stale_or_inWindow_or_future (t : ℚ) (f : NavSatFix) :
    stale t f ∨ inWindow t f ∨ (¬ stale t f ∧ future t f) := by
  unfold stale inWindow future
  rcases lt_or_le f.header.stamp.toSec (dsub t (fl 0.01)) with h | h
  · exact Or.inl h
  · rcases le_or_lt f.header.stamp.toSec (dadd t (fl 0.01)) with h2 | h2
    · exact Or.inr (Or.inl ⟨h, h2⟩)
    · exact Or.inr (Or.inr ⟨not_lt.mpr h, h2⟩)

theorem scanLoop_nil {σ : Type} (E : GlobalOptimization σ) (t : ℚ) (fuel : Nat)
    (s : LoopState σ) (h : s.gpsQueue = []) :
    scanLoop E t fuel s = some { s with trace := s.trace ++ [Event.empty true] } := by
  unfold scanLoop
  simp only [h]

theorem scanLoop_cons {σ : Type} (E : GlobalOptimization σ) (t : ℚ) (fuel : Nat)
    (s : LoopState σ) (f : NavSatFix) (rest : List NavSatFix) (h : s.gpsQueue = f :: rest) :
    scanLoop E t (fuel + 1) s =
      match loopBody E t s f rest with
      | (Ctl.brk, s') => some s'
      | (Ctl.next, s') => scanLoop E t fuel s' := by
  conv_lhs => unfold scanLoop
  simp only [h]

/-- With fuel at least the length of the queue the loop ends, in the state
given by `scanResult`. -/
theorem scanLoop_eq_scanResult {σ : Type} (E : GlobalOptimization σ) (t : ℚ) (fuel : Nat)
    (s : LoopState σ) (h : s.gpsQueue.length ≤ fuel) :
    scanLoop E t fuel s = some (scanResult E t s) := by
  obtain ⟨est, q, m, tr⟩ := s
  induction q generalizing fuel tr with
  | nil => rw [scanLoop_nil E t fuel _ rfl]; simp [scanResult, dropTrace]
  | cons f rest ih =>
    cases fuel with
    | zero => simp at h
    | succ fuel =>
      have hlen : rest.length ≤ fuel := by simpa using h
      rw [scanLoop_cons E t fuel _ f rest rfl]
      rcases stale_or_inWindow_or_future t f with hs | hw | ⟨hns, hf⟩
      · rw [loopBody_of_stale E t _ f rest hs]
        simp only
        rw [ih fuel _ hlen]
        simp only [scanResult, List.takeWhile_cons, List.dropWhile_cons, hs, decide_True,
          if_true, dropTrace]
        split <;> simp [List.append_assoc]
      · have hns : ¬ stale t f := fun h => absurd h (not_lt.mpr hw.1)
        rw [loopBody_of_inWindow E t _ f rest hw]
        simp [scanResult, List.takeWhile_cons, List.dropWhile_cons, hns, hw.2, dropTrace]
      · have hnw : ¬ f.header.stamp.toSec ≤ dadd t (fl 0.01) := not_le.mpr hf
        rw [loopBody_of_future E t _ f rest hns hf]
        simp [scanResult, List.takeWhile_cons, List.dropWhile_cons, hns, hnw, dropTrace]

/-- The three ways the scan loop can end.  `k` are the fixes dropped as
stale, `d` is what follows them in the queue. -/
theorem scanResult_cases {σ : Type} (E : GlobalOptimization σ) (t : ℚ) (s : LoopState σ) :
    ∃ k d, s.gpsQueue = k ++ d ∧ (∀ x ∈ k, stale t x) ∧
      ((d = [] ∧
        scanResult E t s =
          { s with gpsQueue := [], trace := s.trace ++ dropTrace k ++ [Event.empty true] }) ∨
       (∃ f tl, d = f :: tl ∧ inWindow t f ∧
        scanResult E t s =
          { globalEstimator :=
              E.inputGPS t f.latitude f.longitude f.altitude (pos_accuracy f) s.globalEstimator
            gpsQueue := tl
            matched := some f
            trace := s.trace ++ dropTrace k ++
              [Event.empty false, Event.front f,
               Event.inputGPS t f.latitude f.longitude f.altitude (pos_accuracy f),
               Event.pop f] }) ∨
       (∃ f tl, d = f :: tl ∧ ¬ stale t f ∧ future t f ∧
        scanResult E t s =
          { s with gpsQueue := f :: tl,
                   trace := s.trace ++ dropTrace k ++ [Event.empty false, Event.front f] })) := by
  refine ⟨s.gpsQueue.takeWhile (fun f => decide (stale t f)),
    s.gpsQueue.dropWhile (fun f => decide (stale t f)),
    (List.takeWhile_append_dropWhile _ _).symm, ?_, ?_⟩
  · intro x hx
    simpa using List.mem_takeWhile_imp hx
  · have hhead := List.head?_dropWhile_not (fun f => decide (stale t f)) s.gpsQueue
    unfold scanResult
    cases hd : List.dropWhile (fun f => decide (stale t f)) s.gpsQueue with
    | nil => exact Or.inl ⟨rfl, rfl⟩
    | cons f tl =>
      rw [hd] at hhead
      have hns : ¬ stale t f := by simpa using hhead
      right
      by_cases hle : f.header.stamp.toSec ≤ dadd t (fl 0.01)
      · left
        refine ⟨f, tl, rfl, ⟨not_lt.mp hns, hle⟩, ?_⟩
        simp only [hle, if_true]
      · right
        refine ⟨f, tl, rfl, hns, not_le.mp hle, ?_⟩
        simp only [hle, if_false]

/-- Dropping stale fixes calls nothing in the fusion engine. -/
theorem filter_isFusionCall_dropTrace (k : List NavSatFix) :
    (dropTrace k).filter Event.isFusionCall = [] := by
  induction k with
  | nil => rfl
  | cons f k ih => simpa [dropTrace, Event.isFusionCall] using ih

theorem filter_isInputGPS_dropTrace (k : List NavSatFix) :
    (dropTrace k).filter Event.isInputGPS = [] := by
  induction k with
  | nil => rfl
  | cons f k ih => simpa [dropTrace, Event.isInputGPS] using ih

/-- With enough fuel the callback returns; its result is `afterLoop` of the
closed form of the loop. -/
theorem vio_callback_eq {σ : Type} (E : GlobalOptimization σ) (fuel : Nat) (n : Node σ)
    (pose_msg : Odometry) (h : n.gpsQueue.length ≤ fuel) :
    vio_callback E fuel n pose_msg =
      some (afterLoop E pose_msg
        (scanResult E pose_msg.header.stamp.toSec
          (enterLoop
            (E.inputOdom pose_msg.header.stamp.toSec (vio_t pose_msg) (vio_q pose_msg)
              n.globalEstimator)
            n.gpsQueue
            [Event.inputOdom pose_msg.header.stamp.toSec (vio_t pose_msg) (vio_q pose_msg)]))) := by
  unfold vio_callback
  simp only
  rw [scanLoop_eq_scanResult E _ fuel _ h]

theorem not_inWindow_of_stale {t : ℚ} {f : NavSatFix} (h : stale t f) : ¬ inWindow t f :=
  fun hw => absurd h (not_lt.mpr hw.1)

theorem dsub_le_dadd (t : ℚ) : dsub t (fl 0.01) ≤ dadd t (fl 0.01) := by
  have hc : (0 : ℚ) ≤ fl 0.01 := fl_nonneg (by norm_num)
  exact fl_mono (by linarith)

theorem not_future_of_stale {t : ℚ} {f : NavSatFix} (h : stale t f) : ¬ future t f := by
  unfold stale at h
  unfold future
  have := dsub_le_dadd t
  intro hf
  linarith

theorem not_future_of_inWindow {t : ℚ} {f : NavSatFix} (h : inWindow t f) : ¬ future t f :=
  fun hf => absurd h.2 (not_le.mpr hf)

/-- A list of stale fixes holds no future fix. -/
theorem filter_future_of_stale (t : ℚ) (k : List NavSatFix) (hk : ∀ x ∈ k, stale t x) :
    k.filter (fun f => decide (future t f)) = [] := by
  rw [List.filter_eq_nil_iff]
  intro x hx
  simpa using not_future_of_stale (hk x hx)

/-- The two shapes of a run of `vio_callback`: after the stale fixes `k` are
dropped, either no fix is matched and the loop ends on `probe` (the queue is
empty, or its head lies in the future), or the head `f` is matched. -/
theorem vio_callback_cases {σ : Type} (E : GlobalOptimization σ) (fuel : Nat) (n : Node σ)
    (pose_msg : Odometry) (h : n.gpsQueue.length ≤ fuel) :
    ∃ r, vio_callback E fuel n pose_msg = some r ∧
      ∃ k, (∀ x ∈ k, stale pose_msg.header.stamp.toSec x) ∧
        ((r.matched = none ∧ n.gpsQueue = k ++ r.node.gpsQueue ∧
          r.node.globalEstimator =
            E.inputOdom pose_msg.header.stamp.toSec (vio_t pose_msg) (vio_q pose_msg)
              n.globalEstimator ∧
          ∃ probe, (probe = [Event.empty true] ∨
              ∃ f, probe = [Event.empty false, Event.front f]) ∧
            r.trace =
              Event.inputOdom pose_msg.header.stamp.toSec (vio_t pose_msg) (vio_q pose_msg) ::
                Event.lock ::
                  (dropTrace k ++ (probe ++ epilogue E pose_msg r.node.globalEstimator))) ∨
         (∃ f, r.matched = some f ∧ inWindow pose_msg.header.stamp.toSec f ∧
          n.gpsQueue = k ++ f :: r.node.gpsQueue ∧
          r.node.globalEstimator =
            E.inputGPS pose_msg.header.stamp.toSec f.latitude f.longitude f.altitude
              (pos_accuracy f)
              (E.inputOdom pose_msg.header.stamp.toSec (vio_t pose_msg) (vio_q pose_msg)
                n.globalEstimator) ∧
          r.trace =
            Event.inputOdom pose_msg.header.stamp.toSec (vio_t pose_msg) (vio_q pose_msg) ::
              Event.lock ::
                (dropTrace k ++
                  ([Event.empty false, Event.front f,
                    Event.inputGPS pose_msg.header.stamp.toSec f.latitude f.longitude
                      f.altitude (pos_accuracy f),
                    Event.pop f] ++ epilogue E pose_msg r.node.globalEstimator)))) := by
  refine ⟨_, vio_callback_eq E fuel n pose_msg h, ?_⟩
  obtain ⟨k, d, hq, hk, hcase⟩ := scanResult_cases E pose_msg.header.stamp.toSec
    (enterLoop
      (E.inputOdom pose_msg.header.stamp.toSec (vio_t pose_msg) (vio_q pose_msg)
        n.globalEstimator)
      n.gpsQueue
      [Event.inputOdom pose_msg.header.stamp.toSec (vio_t pose_msg) (vio_q pose_msg)])
  have hq' : n.gpsQueue = k ++ d := hq
  refine ⟨k, hk, ?_⟩
  rcases hcase with ⟨hd, hr⟩ | ⟨f, tl, hd, hw, hr⟩ | ⟨f, tl, hd, hns, hf, hr⟩
  · left
    rw [hr]
    refine ⟨rfl, by simpa [afterLoop, hd] using hq', rfl, [Event.empty true], Or.inl rfl, ?_⟩
    simp [afterLoop, enterLoop]
  · right
    rw [hr]
    refine ⟨f, rfl, hw, by simpa [afterLoop, hd] using hq', rfl, ?_⟩
    simp [afterLoop, enterLoop]
  · left
    rw [hr]
    refine ⟨rfl, by simpa [afterLoop, hd] using hq', rfl,
      [Event.empty false, Event.front f], Or.inr ⟨f, rfl⟩, ?_⟩
    simp [afterLoop, enterLoop]

/-! ## Traces -/

theorem filterMap_publishedOdometry_dropTrace (k : List NavSatFix) :
    (dropTrace k).filterMap Event.publishedOdometry? = [] := by
  induction k with
  | nil => rfl
  | cons f k ih => simpa [dropTrace, Event.publishedOdometry?] using ih

theorem filterMap_pushed_dropTrace (k : List NavSatFix) :
    (dropTrace k).filterMap Event.pushed? = [] := by
  induction k with
  | nil => rfl
  | cons f k ih => simpa [dropTrace, Event.pushed?] using ih

theorem filterMap_popped_dropTrace (k : List NavSatFix) :
    (dropTrace k).filterMap Event.popped? = k := by
  induction k with
  | nil => rfl
  | cons f k ih => simpa [dropTrace, Event.popped?] using ih

theorem filter_isLock_dropTrace (k : List NavSatFix) :
    (dropTrace k).filter Event.isLock = [] := by
  induction k with
  | nil => rfl
  | cons f k ih => simpa [dropTrace, Event.isLock] using ih

theorem filter_isUnlock_dropTrace (k : List NavSatFix) :
    (dropTrace k).filter Event.isUnlock = [] := by
  induction k with
  | nil => rfl
  | cons f k ih => simpa [dropTrace, Event.isUnlock] using ih

theorem underLock_dropTrace_append (k : List NavSatFix) (es : List Event) :
    underLock true (dropTrace k ++ es) = dropTrace k ++ underLock true es := by
  induction k with
  | nil => rfl
  | cons f k ih => simp [dropTrace, underLock, ih]

theorem lockDiscipline_dropTrace_append (held : Bool) (k : List NavSatFix) (es : List Event) :
    lockDiscipline held (dropTrace k ++ es) = lockDiscipline held es := by
  induction k with
  | nil => rfl
  | cons f k ih => simp [dropTrace, lockDiscipline, ih]

/-- What one run of `vio_callback` publishes and does to the queue. -/
theorem vio_callback_summary {σ : Type} (E : GlobalOptimization σ) (fuel : Nat) (n : Node σ)
    (pose_msg : Odometry) (h : n.gpsQueue.length ≤ fuel) :
    ∃ r, vio_callback E fuel n pose_msg = some r ∧
      r.trace.filterMap Event.publishedOdometry? =
        [fusedOdometry pose_msg (E.getGlobalOdom r.node.globalEstimator).1
          (E.getGlobalOdom r.node.globalEstimator).2] ∧
      r.trace.filterMap Event.pushed? = [] ∧
      n.gpsQueue = r.trace.filterMap Event.popped? ++ r.node.gpsQueue := by
  obtain ⟨r, hr, k, _, hcase⟩ := vio_callback_cases E fuel n pose_msg h
  refine ⟨r, hr, ?_⟩
  rcases hcase with ⟨_, hq, _, probe, hp, htr⟩ | ⟨f, _, _, hq, _, htr⟩
  · rw [htr]
    rcases hp with rfl | ⟨f, rfl⟩
    · simp [List.filterMap_append, filterMap_publishedOdometry_dropTrace,
        filterMap_pushed_dropTrace, filterMap_popped_dropTrace, epilogue,
        Event.publishedOdometry?, Event.pushed?, Event.popped?]
      exact hq
    · simp [List.filterMap_append, filterMap_publishedOdometry_dropTrace,
        filterMap_pushed_dropTrace, filterMap_popped_dropTrace, epilogue,
        Event.publishedOdometry?, Event.pushed?, Event.popped?]
      exact hq
  · rw [htr]
    simp [List.filterMap_append, filterMap_publishedOdometry_dropTrace,
      filterMap_pushed_dropTrace, filterMap_popped_dropTrace, epilogue,
      Event.publishedOdometry?, Event.pushed?, Event.popped?]
    exact hq

/-- A run of the node over a list of inputs returns when the fuel covers the
initial queue and one more fix per input; it publishes one fused pose per
odometry sample, in the order of the samples; it pushes the fixes delivered,
in the order of delivery; and the queue is what was there or pushed, less what
was popped, in order. -/
theorem spin_summary {σ : Type} (E : GlobalOptimization σ) (fuel : Nat) (ins : List Input) :
    ∀ (n : Node σ), n.gpsQueue.length + ins.length ≤ fuel →
    ∃ n' tr, spin E fuel n ins = some (n', tr) ∧
      (tr.filterMap Event.publishedOdometry?).map (fun o => o.header.stamp) =
        (ins.filterMap Input.sample?).map (fun o => o.header.stamp) ∧
      tr.filterMap Event.pushed? = ins.filterMap Input.fix? ∧
      n.gpsQueue ++ tr.filterMap Event.pushed? =
        tr.filterMap Event.popped? ++ n'.gpsQueue := by
  induction ins with
  | nil => intro n _; exact ⟨n, [], rfl, rfl, rfl, by simp⟩
  | cons i ins ih =>
    intro n h
    cases i with
    | gps GPS_msg =>
      have hlen : (GPS_callback n GPS_msg).1.gpsQueue.length + ins.length ≤ fuel := by
        simp only [GPS_callback, List.length_append, List.length_cons, List.length_nil] at *
        omega
      obtain ⟨n', tr, hs, hpub, hpush, hq⟩ := ih (GPS_callback n GPS_msg).1 hlen
      refine ⟨n', (GPS_callback n GPS_msg).2 ++ tr, ?_, ?_, ?_, ?_⟩
      · simp only [spin, hs, Option.map_some']
      · simpa [GPS_callback, Event.publishedOdometry?, Input.sample?] using hpub
      · simpa [GPS_callback, Event.pushed?, Input.fix?] using hpush
      · have hq' : n.gpsQueue ++ [GPS_msg] ++ tr.filterMap Event.pushed? =
            tr.filterMap Event.popped? ++ n'.gpsQueue := hq
        simpa [GPS_callback, Event.pushed?, Event.popped?] using hq'
    | vio pose_msg =>
      have hlen0 : n.gpsQueue.length ≤ fuel := by
        simp only [List.length_cons] at h; omega
      obtain ⟨r, hr, hrpub, hrpush, hrq⟩ := vio_callback_summary E fuel n pose_msg hlen0
      have hlen : r.node.gpsQueue.length + ins.length ≤ fuel := by
        have := congrArg List.length hrq
        simp only [List.length_append, List.length_cons] at this h
        omega
      obtain ⟨n', tr, hs, hpub, hpush, hq⟩ := ih r.node hlen
      refine ⟨n', r.trace ++ tr, ?_, ?_, ?_, ?_⟩
      · simp only [spin, hr, hs, Option.map_some']
      · simp [List.filterMap_append, hrpub, hpub, Input.sample?, fusedOdometry]
      · simp [List.filterMap_append, hrpush, hpush, Input.fix?]
      · rw [List.filterMap_append, List.filterMap_append, hrpush, List.nil_append, hrq,
          List.append_assoc, hq, List.append_assoc]

/-! ## The lower threshold of the code -/

/-- The lower threshold of the code does not decrease with the odometry
time. -/
theorem dsub_mono {t t' : ℚ} (h : t ≤ t') : dsub t (fl 0.01) ≤ dsub t' (fl 0.01) :=
  fl_mono (by linarith)

/-! ## The tests of the code in the scenarios -/

theorem stale_10_9_0 {t : ℚ} (ht : t = 10) : stale t (fixAt 9 0) := by
  subst ht; unfold stale; rw [stamp_9_0, lower_10]; norm_num

theorem stale_10_9_5 {t : ℚ} (ht : t = 10) : stale t (fixAt 9 500000000) := by
  subst ht; unfold stale; rw [stamp_9_5, lower_10]; norm_num

theorem inWindow_10_9_995 {t : ℚ} (ht : t = 10) : inWindow t (fixAt 9 995000000) := by
  subst ht; unfold inWindow; rw [stamp_9_995, lower_10, upper_10]; norm_num

theorem inWindow_10_10_0 {t : ℚ} (ht : t = 10) : inWindow t (fixAt 10 0) := by
  subst ht; unfold inWindow; rw [stamp_10_0, lower_10, upper_10]; norm_num

theorem inWindow_10_10_005 {t : ℚ} (ht : t = 10) : inWindow t (fixAt 10 5000000) := by
  subst ht; unfold inWindow; rw [stamp_10_005, lower_10, upper_10]; norm_num

theorem future_10_10_5 {t : ℚ} (ht : t = 10) : future t (fixAt 10 500000000) := by
  subst ht; unfold future; rw [stamp_10_5, upper_10]; norm_num

theorem inWindow_9_5_9_5 {t : ℚ} (ht : t = 19 / 2) : inWindow t (fixAt 9 500000000) := by
  subst ht; unfold inWindow; rw [stamp_9_5, lower_9_5, upper_9_5]; norm_num

theorem inWindow_0_0_01 {t : ℚ} (ht : t = 0) : inWindow t (fixAt 0 10000000) := by
  subst ht; unfold inWindow; rw [stamp_0_01, lower_0, upper_0]; norm_num

theorem inWindow_tol_0_0 {t : ℚ} (ht : t = 5764607523034235 / 576460752303423488) :
    inWindow t (fixAt 0 0) := by
  subst ht; unfold inWindow; rw [stamp_0_0, lower_tol, upper_tol]; norm_num

theorem stale_8_582_8_572 {t : ℚ} (ht : t = 1207809125065425 / 140737488355328) :
    stale t (fixAt 8 572000000) := by
  subst ht; unfold stale; rw [stamp_8_572, lower_8_582]; norm_num

theorem inWindow_8_582_8_58 {t : ℚ} (ht : t = 1207809125065425 / 140737488355328) :
    inWindow t (fixAt 8 580000000) := by
  subst ht; unfold inWindow; rw [stamp_8_58, lower_8_582, upper_8_582]; norm_num

theorem future_8_582_8_6 {t : ℚ} (ht : t = 1207809125065425 / 140737488355328) :
    future t (fixAt 8 600000000) := by
  subst ht; unfold future; rw [stamp_8_6, upper_8_582]; norm_num

theorem future_35_248_35_258 {t : ℚ} (ht : t = 4960714989548601 / 140737488355328) :
    future t (fixAt 35 258000000) := by
  subst ht; unfold future; rw [stamp_35_258, upper_35_248]; norm_num

theorem inWindow_epoch_epoch_after {t : ℚ} (ht : t = 1700000000) :
    inWindow t (fixAt 1700000000 10000001) := by
  subst ht; unfold inWindow; rw [stamp_epoch_after, lower_epoch, upper_epoch]; norm_num

theorem inWindow_epoch_epoch_before {t : ℚ} (ht : t = 1700000000) :
    inWindow t (fixAt 1699999999 989999900) := by
  subst ht; unfold inWindow; rw [stamp_epoch_before, lower_epoch, upper_epoch]; norm_num

theorem not_stale_of_inWindow {t : ℚ} {f : NavSatFix} (h : inWindow t f) : ¬ stale t f :=
  fun hs => absurd hs (not_lt.mpr h.1)

theorem not_stale_of_future {t : ℚ} {f : NavSatFix} (h : future t f) : ¬ stale t f := by
  intro hs
  exact not_future_of_stale hs h

/-! ## Evaluation of the scan on a buffer of known shape -/

theorem takeWhile_stale_append {t : ℚ} {k : List NavSatFix} {f : NavSatFix}
    {tl : List NavSatFix} (hk : ∀ x ∈ k, stale t x) (hf : ¬ stale t f) :
    (k ++ f :: tl).takeWhile (fun x => decide (stale t x)) = k := by
  rw [List.takeWhile_append_of_pos (by simpa using hk),
    List.takeWhile_cons_of_neg (by simpa using hf), List.append_nil]

theorem dropWhile_stale_append {t : ℚ} {k : List NavSatFix} {f : NavSatFix}
    {tl : List NavSatFix} (hk : ∀ x ∈ k, stale t x) (hf : ¬ stale t f) :
    (k ++ f :: tl).dropWhile (fun x => decide (stale t x)) = f :: tl := by
  rw [List.dropWhile_append_of_pos (by simpa using hk),
    List.dropWhile_cons_of_neg (by simpa using hf)]

/-- The run on a queue `k ++ f :: tl` whose fixes `k` are stale and whose fix
`f` is in the window: `f` is matched. -/
theorem vio_callback_of_match {σ : Type} (E : GlobalOptimization σ) (fuel : Nat) (n : Node σ)
    (pose_msg : Odometry) (k : List NavSatFix) (f : NavSatFix) (tl : List NavSatFix)
    (h : n.gpsQueue.length ≤ fuel) (hq : n.gpsQueue = k ++ f :: tl)
    (hk : ∀ x ∈ k, stale pose_msg.header.stamp.toSec x)
    (hw : inWindow pose_msg.header.stamp.toSec f) :
    vio_callback E fuel n pose_msg = some
      { node :=
          { globalEstimator :=
              E.inputGPS pose_msg.header.stamp.toSec f.latitude f.longitude f.altitude
                (pos_accuracy f)
                (E.inputOdom pose_msg.header.stamp.toSec (vio_t pose_msg) (vio_q pose_msg)
                  n.globalEstimator)
            gpsQueue := tl
            last_vio_t := pose_msg.header.stamp.toSec
            shared_time := pose_msg.header.stamp.toSec }
        matched := some f
        trace :=
          Event.inputOdom pose_msg.header.stamp.toSec (vio_t pose_msg) (vio_q pose_msg) ::
            Event.lock ::
              (dropTrace k ++
                ([Event.empty false, Event.front f,
                  Event.inputGPS pose_msg.header.stamp.toSec f.latitude f.longitude
                    f.altitude (pos_accuracy f),
                  Event.pop f] ++
                  epilogue E pose_msg
                    (E.inputGPS pose_msg.header.stamp.toSec f.latitude f.longitude f.altitude
                      (pos_accuracy f)
                      (E.inputOdom pose_msg.header.stamp.toSec (vio_t pose_msg)
                        (vio_q pose_msg) n.globalEstimator)))) } := by
  rw [vio_callback_eq E fuel n pose_msg h]
  simp only [scanResult, enterLoop, hq, takeWhile_stale_append hk (not_stale_of_inWindow hw),
    dropWhile_stale_append hk (not_stale_of_inWindow hw), hw.2, if_true, afterLoop]
  simp

/-- The run on a queue `k ++ f :: tl` whose fixes `k` are stale and whose fix
`f` lies in the future: nothing is matched and `f :: tl` stays. -/
theorem vio_callback_of_future {σ : Type} (E : GlobalOptimization σ) (fuel : Nat) (n : Node σ)
    (pose_msg : Odometry) (k : List NavSatFix) (f : NavSatFix) (tl : List NavSatFix)
    (h : n.gpsQueue.length ≤ fuel) (hq : n.gpsQueue = k ++ f :: tl)
    (hk : ∀ x ∈ k, stale pose_msg.header.stamp.toSec x)
    (hf : future pose_msg.header.stamp.toSec f) :
    vio_callback E fuel n pose_msg = some
      { node :=
          { globalEstimator :=
              E.inputOdom pose_msg.header.stamp.toSec (vio_t pose_msg) (vio_q pose_msg)
                n.globalEstimator
            gpsQueue := f :: tl
            last_vio_t := pose_msg.header.stamp.toSec
            shared_time := pose_msg.header.stamp.toSec }
        matched := none
        trace :=
          Event.inputOdom pose_msg.header.stamp.toSec (vio_t pose_msg) (vio_q pose_msg) ::
            Event.lock ::
              (dropTrace k ++
                ([Event.empty false, Event.front f] ++
                  epilogue E pose_msg
                    (E.inputOdom pose_msg.header.stamp.toSec (vio_t pose_msg)
                      (vio_q pose_msg) n.globalEstimator))) } := by
  rw [vio_callback_eq E fuel n pose_msg h]
  have hnle : ¬ f.header.stamp.toSec ≤ dadd pose_msg.header.stamp.toSec (fl 0.01) :=
    not_le.mpr hf
  simp only [scanResult, enterLoop, hq, takeWhile_stale_append hk (not_stale_of_future hf),
    dropWhile_stale_append hk (not_stale_of_future hf), hnle, if_false, afterLoop]
  simp

/-- The scan loop on a queue `k ++ f :: tl` whose fixes `k` are stale and whose
fix `f` is in the window: `f` is matched and `tl` is left. -/
theorem scanLoop_of_match {σ : Type} (E : GlobalOptimization σ) (t : ℚ) (fuel : Nat)
    (est : σ) (tr : List Event) (k : List NavSatFix) (f : NavSatFix) (tl : List NavSatFix)
    (h : (k ++ f :: tl).length ≤ fuel) (hk : ∀ x ∈ k, stale t x) (hw : inWindow t f) :
    (scanLoop E t fuel (enterLoop est (k ++ f :: tl) tr)).map
        (fun s => (s.matched, s.gpsQueue)) = some (some f, tl) := by
  rw [scanLoop_eq_scanResult E t fuel (enterLoop est (k ++ f :: tl) tr) h]
  simp only [scanResult, enterLoop, takeWhile_stale_append hk (not_stale_of_inWindow hw),
    dropWhile_stale_append hk (not_stale_of_inWindow hw), hw.2, if_true, Option.map_some']

/-- The reference policy in exact arithmetic on a buffer whose head is above
`t + 0.01`: no match. -/
theorem referencePolicy_of_beyond (t : ℚ) (f : NavSatFix) (tl : List NavSatFix)
    (h1 : ¬ f.header.stamp.toSec < t - 0.01) (h2 : ¬ f.header.stamp.toSec ≤ t + 0.01) :
    referencePolicy t (f :: tl) = (none, f :: tl) := by
  unfold referencePolicy
  rw [List.dropWhile_cons_of_neg (by simpa using h1)]
  simp only [h2, if_false]

/-- The scan loop on a queue `k ++ f :: tl` whose fixes `k` are stale and whose
fix `f` lies in the future: nothing is matched and `f :: tl` is left. -/
theorem scanLoop_of_future {σ : Type} (E : GlobalOptimization σ) (t : ℚ) (fuel : Nat)
    (est : σ) (tr : List Event) (k : List NavSatFix) (f : NavSatFix) (tl : List NavSatFix)
    (h : (k ++ f :: tl).length ≤ fuel) (hk : ∀ x ∈ k, stale t x) (hf : future t f) :
    (scanLoop E t fuel (enterLoop est (k ++ f :: tl) tr)).map
        (fun s => (s.matched, s.gpsQueue)) = some (none, f :: tl) := by
  rw [scanLoop_eq_scanResult E t fuel (enterLoop est (k ++ f :: tl) tr) h]
  have hnle : ¬ f.header.stamp.toSec ≤ dadd t (fl 0.01) := not_le.mpr hf
  simp only [scanResult, enterLoop, takeWhile_stale_append hk (not_stale_of_future hf),
    dropWhile_stale_append hk (not_stale_of_future hf), hnle, if_false, Option.map_some']

/-- The reference policy read on the stamps, on a buffer whose head lies in
the window: the head is the match. -/
theorem referencePolicyOnStamps_of_inWindow (stamp : Time) (f : NavSatFix)
    (tl : List NavSatFix) (h1 : ¬ f.header.stamp.seconds < stamp.seconds - 0.01)
    (h2 : f.header.stamp.seconds ≤ stamp.seconds + 0.01) :
    referencePolicyOnStamps stamp (f :: tl) = (some f, tl) := by
  unfold referencePolicyOnStamps
  rw [List.dropWhile_cons_of_neg (by simpa using h1)]
  simp only [h2, if_true]

/-! ## The times that the stamps of the scenarios denote -/

theorem seconds_fixAt (sec nsec : Nat) :
    (fixAt sec nsec).header.stamp.seconds = sec + nsec / 10 ^ 9 := rfl

theorem seconds_odomAt (sec nsec : Nat) :
    (odomAt sec nsec).header.stamp.seconds = sec + nsec / 10 ^ 9 := rfl

/-! ## The scan loop and the reference policy -/

/-- C1, as stated, fails.  At `t = 8.582` on the buffer `[8.572, 8.6]` the
code pops the fix of 8.572 as stale and, the fix of 8.6 being in the future,
reports no match: the doubles it compares are `8.572` for the stamp and
`8.572000000000001` for `t - 0.01`.  The fix is exactly 0.01 s older than the
sample, so the reference policy with tolerance 0.01 reports it as the match.
And when `g` and `t` are read as the doubles that `toSec()` returns, at
`t = 0.0` on the buffer `[0.01]` the code matches the fix, whose stamp is the
double it computes for `t + 0.01`, whereas that double lies above 0.01 and the
reference policy reports no match. -/
theorem scanLoop_differs_from_referencePolicy :
    ((scanLoop countingEngine (odomAt 8 582000000).header.stamp.toSec 2
          (enterLoop 0 [fixAt 8 572000000, fixAt 8 600000000] [])).map
          (fun s => (s.matched, s.gpsQueue)) = some (none, [fixAt 8 600000000]) ∧
      referencePolicyOnStamps (odomAt 8 582000000).header.stamp
          [fixAt 8 572000000, fixAt 8 600000000] =
        (some (fixAt 8 572000000), [fixAt 8 600000000])) ∧
    ((scanLoop countingEngine (odomAt 0 0).header.stamp.toSec 1
          (enterLoop 0 [fixAt 0 10000000] [])).map
          (fun s => (s.matched, s.gpsQueue)) = some (some (fixAt 0 10000000), []) ∧
      referencePolicy (odomAt 0 0).header.stamp.toSec [fixAt 0 10000000] =
        (none, [fixAt 0 10000000])) := by
  refine ⟨⟨?_, ?_⟩, ?_, ?_⟩
  · have hk : ∀ x ∈ [fixAt 8 572000000], stale (odomAt 8 582000000).header.stamp.toSec x := by
      intro x hx; rw [List.mem_singleton] at hx; subst hx; exact stale_8_582_8_572 time_8_582
    exact scanLoop_of_future countingEngine _ 2 0 [] [fixAt 8 572000000] (fixAt 8 600000000) []
      le_rfl hk (future_8_582_8_6 time_8_582)
  · apply referencePolicyOnStamps_of_inWindow
    · rw [seconds_fixAt, seconds_odomAt]; norm_num
    · rw [seconds_fixAt, seconds_odomAt]; norm_num
  · exact scanLoop_of_match countingEngine _ 1 0 [] [] (fixAt 0 10000000) [] le_rfl
      (by simp) (inWindow_0_0_01 time_0)
  · have h1 : ¬ (fixAt 0 10000000).header.stamp.toSec <
        (odomAt 0 0).header.stamp.toSec - 0.01 := by
      rw [stamp_0_01, time_0]; norm_num
    have h2 : ¬ (fixAt 0 10000000).header.stamp.toSec ≤
        (odomAt 0 0).header.stamp.toSec + 0.01 := by
      rw [stamp_0_01, time_0]; norm_num
    exact referencePolicy_of_beyond _ (fixAt 0 10000000) [] h1 h2

/-- C1, amended: for every buffer and every odometry time `t` the scan loop
of `vio_callback` ends (given fuel for one body execution per buffered fix)
with the match and the buffer of the reference policy whose two thresholds
are the doubles `t - 0.01` and `t + 0.01` that the code computes; at
`t = 10.0` on the buffer `[9.5, 10.005, 10.5]` the match is the fix of 10.005
and the buffer afterwards is `[10.5]`; on an empty buffer there is no match
and the buffer stays empty. -/
theorem scanLoop_refines_referencePolicyWith :
    (∀ {σ : Type} (E : GlobalOptimization σ) (t : ℚ) (est : σ) (q : List NavSatFix)
        (tr : List Event) (fuel : Nat), q.length ≤ fuel →
        (scanLoop E t fuel (enterLoop est q tr)).map (fun s => (s.matched, s.gpsQueue))
          = some (referencePolicyWith (dsub t (fl 0.01)) (dadd t (fl 0.01)) q)) ∧
    (∀ {σ : Type} (E : GlobalOptimization σ) (est : σ) (tr : List Event) (fuel : Nat),
        3 ≤ fuel →
        (scanLoop E 10.0 fuel (enterLoop est [fixAt 9 500000000, fixAt 10 5000000, fixAt 10 500000000] tr)).map
            (fun s => (s.matched, s.gpsQueue))
          = some (some (fixAt 10 5000000), [fixAt 10 500000000])) ∧
    (∀ {σ : Type} (E : GlobalOptimization σ) (t : ℚ) (est : σ) (tr : List Event) (fuel : Nat),
        (scanLoop E t fuel (enterLoop est [] tr)).map (fun s => (s.matched, s.gpsQueue))
          = some (none, [])) := by
  have key : ∀ {σ : Type} (E : GlobalOptimization σ) (t : ℚ) (est : σ) (q : List NavSatFix)
      (tr : List Event) (fuel : Nat), q.length ≤ fuel →
      (scanLoop E t fuel (enterLoop est q tr)).map (fun s => (s.matched, s.gpsQueue))
        = some (referencePolicyWith (dsub t (fl 0.01)) (dadd t (fl 0.01)) q) := by
    intro σ E t est q tr fuel h
    rw [scanLoop_eq_scanResult E t fuel _ h]
    simp only [Option.map_some', scanResult, enterLoop, referencePolicyWith, stale]
    cases List.dropWhile (fun f => decide (f.header.stamp.toSec < dsub t (fl 0.01))) q with
    | nil => rfl
    | cons f tl => dsimp only; split <;> rfl
  refine ⟨key, ?_, ?_⟩
  · intro σ E est tr fuel h
    have ht : (10.0 : ℚ) = 10 := by norm_num
    have hk : ∀ x ∈ [fixAt 9 500000000], stale 10.0 x := by
      intro x hx; rw [List.mem_singleton] at hx; subst hx; exact stale_10_9_5 ht
    exact scanLoop_of_match E 10.0 fuel est tr [fixAt 9 500000000] (fixAt 10 5000000) [fixAt 10 500000000] h hk
      (inWindow_10_10_005 ht)
  · intro σ E t est tr fuel
    rw [key E t est [] tr fuel (Nat.zero_le _)]
    rfl

/-- Witness of C1 (amended): the counting engine at `t = 10.0` on
`[9.5, 10.005, 10.5]` with fuel 3. -/
theorem scanLoop_refines_referencePolicyWith_witness :
    ([fixAt 9 500000000, fixAt 10 5000000, fixAt 10 500000000].length ≤ 3) ∧
    (scanLoop countingEngine 10.0 3
        (enterLoop 0 [fixAt 9 500000000, fixAt 10 5000000, fixAt 10 500000000] [])).map
        (fun s => (s.matched, s.gpsQueue))
      = some (referencePolicyWith (dsub 10.0 (fl 0.01)) (dadd 10.0 (fl 0.01))
          [fixAt 9 500000000, fixAt 10 5000000, fixAt 10 500000000]) :=
  ⟨by decide,
   scanLoop_refines_referencePolicyWith.1 countingEngine 10.0 0 _ [] 3 (by decide)⟩

/-! ## Termination -/

/-- C9: for every buffer of length `n` and every odometry time `t` the scan
loop ends within `n` executions of its body (fuel `n` is enough, and so is
any larger fuel, with the same result), and one execution of the body either
pops the head of the queue or leaves the loop. -/
theorem scanLoop_terminates {σ : Type} (E : GlobalOptimization σ) (t : ℚ)
    (s : LoopState σ) :
    (∃ s', scanLoop E t s.gpsQueue.length s = some s' ∧
       ∀ fuel, s.gpsQueue.length ≤ fuel → scanLoop E t fuel s = some s') ∧
    (∀ (GPS_msg : NavSatFix) (rest : List NavSatFix),
       (loopBody E t s GPS_msg rest).1 = Ctl.brk ∨
       ((loopBody E t s GPS_msg rest).1 = Ctl.next ∧
        (loopBody E t s GPS_msg rest).2.gpsQueue = rest)) := by
  refine ⟨⟨scanResult E t s, scanLoop_eq_scanResult E t _ s le_rfl,
    fun fuel h => scanLoop_eq_scanResult E t fuel s h⟩, ?_⟩
  intro f rest
  rcases stale_or_inWindow_or_future t f with hs | hw | ⟨hns, hf⟩
  · right; rw [loopBody_of_stale E t s f rest hs]; exact ⟨rfl, rfl⟩
  · left; rw [loopBody_of_inWindow E t s f rest hw]
  · left; rw [loopBody_of_future E t s f rest hns hf]

/-! ## At most one match -/

/-- C2, as stated, fails.  On the buffer `[8.572, 8.58]` at `t = 8.582` the
fix of 8.58 is matched although the fix of 8.572, enqueued before it, is
exactly 0.01 s older than the sample and so has `|g - t| <= 0.01`: the code
compares the double `8.572` of its stamp with the double `8.572000000000001`
it computes for `t - 0.01` and pops the fix as stale.  And when `g` and `t`
are read as the doubles that `toSec()` returns, on the buffer `[0.01]` at
`t = 0.0` the fix is matched, its stamp being the double that the code also
obtains for `t + 0.01`, although that double lies above 0.01. -/
theorem matched_fix_not_earliest_in_window :
    (∃ r, vio_callback countingEngine 2
        { globalEstimator := 0, gpsQueue := [fixAt 8 572000000, fixAt 8 580000000],
          last_vio_t := -1, shared_time := 0 } (odomAt 8 582000000) = some r ∧
      r.matched = some (fixAt 8 580000000) ∧
      |(fixAt 8 572000000).header.stamp.seconds - (odomAt 8 582000000).header.stamp.seconds|
        ≤ 0.01) ∧
    (∃ r, vio_callback countingEngine 1
        { globalEstimator := 0, gpsQueue := [fixAt 0 10000000], last_vio_t := -1,
          shared_time := 0 } (odomAt 0 0) = some r ∧
      r.matched = some (fixAt 0 10000000) ∧
      ¬ |(fixAt 0 10000000).header.stamp.toSec - (odomAt 0 0).header.stamp.toSec| ≤ 0.01) := by
  constructor
  · have hk : ∀ x ∈ [fixAt 8 572000000], stale (odomAt 8 582000000).header.stamp.toSec x := by
      intro x hx; rw [List.mem_singleton] at hx; subst hx; exact stale_8_582_8_572 time_8_582
    refine ⟨_, vio_callback_of_match countingEngine 2 _ (odomAt 8 582000000)
      [fixAt 8 572000000] (fixAt 8 580000000) [] le_rfl rfl hk
      (inWindow_8_582_8_58 time_8_582), rfl, ?_⟩
    rw [seconds_fixAt, seconds_odomAt]
    norm_num [abs_le]
  · refine ⟨_, vio_callback_of_match countingEngine 1 _ (odomAt 0 0) [] (fixAt 0 10000000) []
      le_rfl rfl (by simp) (inWindow_0_0_01 time_0), rfl, ?_⟩
    rw [stamp_0_01, time_0]
    norm_num [abs_le]

/-- C2, amended: for any buffer, in any time-stamp order, and any odometry
time `t`, one run of `vio_callback` calls `inputGPS` at most once, exactly once
when a fix is matched and not at all otherwise; a matched fix passes the
window test of the code, `t - 0.01 <= g <= t + 0.01` evaluated on the doubles
that `toSec()` returns with the difference and the sum rounded, every fix
enqueued before it fails that test, being below the double `t - 0.01`, and the
fixes behind it stay buffered.  On the buffer `[9.995, 10.004]` at `t = 10.0`
only the fix of 9.995 is matched and `[10.004]` stays buffered. -/
theorem vio_callback_at_most_one_match :
    (∀ {σ : Type} (E : GlobalOptimization σ) (fuel : Nat) (n : Node σ) (pose_msg : Odometry),
      n.gpsQueue.length ≤ fuel →
      ∃ r, vio_callback E fuel n pose_msg = some r ∧
        (r.trace.filter Event.isInputGPS).length ≤ 1 ∧
        ((r.trace.filter Event.isInputGPS).length = 1 ↔ r.matched.isSome = true) ∧
        ∀ f, r.matched = some f →
          (dsub pose_msg.header.stamp.toSec (fl 0.01) ≤ f.header.stamp.toSec ∧
            f.header.stamp.toSec ≤ dadd pose_msg.header.stamp.toSec (fl 0.01)) ∧
          ∃ pre, n.gpsQueue = pre ++ f :: r.node.gpsQueue ∧
            ∀ x ∈ pre, x.header.stamp.toSec < dsub pose_msg.header.stamp.toSec (fl 0.01)) ∧
    (∀ {σ : Type} (E : GlobalOptimization σ) (fuel : Nat) (n : Node σ),
      2 ≤ fuel → n.gpsQueue = [fixAt 9 995000000, fixAt 10 4000000] →
      ∃ r, vio_callback E fuel n (odomAt 10 0) = some r ∧
        r.matched = some (fixAt 9 995000000) ∧ r.node.gpsQueue = [fixAt 10 4000000] ∧
        (r.trace.filter Event.isInputGPS).length = 1) := by
  refine ⟨?_, ?_⟩
  · intro σ E fuel n pose_msg h
    refine ⟨_, vio_callback_eq E fuel n pose_msg h, ?_⟩
    obtain ⟨k, d, hq, hk, hcase⟩ := scanResult_cases E pose_msg.header.stamp.toSec
      (enterLoop
        (E.inputOdom pose_msg.header.stamp.toSec (vio_t pose_msg) (vio_q pose_msg)
          n.globalEstimator)
        n.gpsQueue
        [Event.inputOdom pose_msg.header.stamp.toSec (vio_t pose_msg) (vio_q pose_msg)])
    rcases hcase with ⟨_, hr⟩ | ⟨f, tl, hd, hw, hr⟩ | ⟨f, tl, _, _, _, hr⟩
    · rw [hr]
      simp [afterLoop, epilogue, enterLoop, Event.isInputGPS, filter_isInputGPS_dropTrace]
    · rw [hr]
      refine ⟨?_, ?_, ?_⟩
      · simp [afterLoop, epilogue, enterLoop, Event.isInputGPS, filter_isInputGPS_dropTrace]
      · simp [afterLoop, epilogue, enterLoop, Event.isInputGPS, filter_isInputGPS_dropTrace]
      · intro f' hf'
        have hff : f = f' := by simpa [afterLoop] using hf'
        subst hff
        refine ⟨hw, k, ?_, fun x hx => hk x hx⟩
        have : n.gpsQueue = k ++ d := hq
        simpa [afterLoop, hd] using this
    · rw [hr]
      simp [afterLoop, epilogue, enterLoop, Event.isInputGPS, filter_isInputGPS_dropTrace]
  · intro σ E fuel n h hq
    refine ⟨_, vio_callback_of_match E fuel n (odomAt 10 0) [] (fixAt 9 995000000) [fixAt 10 4000000]
      (by rw [hq]; exact h) hq (by simp) (inWindow_10_9_995 time_10), rfl, rfl, ?_⟩
    simp [dropTrace, epilogue, Event.isInputGPS]

/-- Witness of C2 (amended): the counting engine on the buffer
`[9.995, 10.004]` at `t = 10.0` with fuel 2. -/
theorem vio_callback_at_most_one_match_witness :
    (2 ≤ 2) ∧
    ∃ r, vio_callback countingEngine 2
        { globalEstimator := 0, gpsQueue := [fixAt 9 995000000, fixAt 10 4000000],
          last_vio_t := -1, shared_time := 0 } (odomAt 10 0) = some r ∧
      r.matched = some (fixAt 9 995000000) ∧ r.node.gpsQueue = [fixAt 10 4000000] ∧
      (r.trace.filter Event.isInputGPS).length = 1 :=
  ⟨le_rfl, vio_callback_at_most_one_match.2 countingEngine 2 _ le_rfl rfl⟩

/-! ## Completeness on time-ordered buffers -/

/-- C10, as stated, fails.  The buffer `[35.258]` is ordered and its fix is
exactly 0.01 s younger than the sample of `t = 35.248`, so it has
`t - 0.01 <= g <= t + 0.01`, yet no match is reported: the code compares the
double `35.258` of the stamp with the double `35.257999999999996` it computes
for `t + 0.01` and leaves the fix as a future one.  And when `g` and `t` are
read as the doubles that `toSec()` returns, the ordered buffer `[0.01]` gives
a match at `t = 0.0` although the stamp, the double `0.01`, lies above
0.01. -/
theorem match_iff_fix_in_exact_window_fails :
    ([fixAt 35 258000000].Pairwise (fun a b => a.header.stamp.toSec ≤ b.header.stamp.toSec) ∧
      ∃ r, vio_callback countingEngine 1
          { globalEstimator := 0, gpsQueue := [fixAt 35 258000000], last_vio_t := -1,
            shared_time := 0 } (odomAt 35 248000000) = some r ∧
        r.matched = none ∧
        ∃ f ∈ [fixAt 35 258000000],
          (odomAt 35 248000000).header.stamp.seconds - 0.01 ≤ f.header.stamp.seconds ∧
          f.header.stamp.seconds ≤ (odomAt 35 248000000).header.stamp.seconds + 0.01) ∧
    ([fixAt 0 10000000].Pairwise (fun a b => a.header.stamp.toSec ≤ b.header.stamp.toSec) ∧
      ∃ r, vio_callback countingEngine 1
          { globalEstimator := 0, gpsQueue := [fixAt 0 10000000], last_vio_t := -1,
            shared_time := 0 } (odomAt 0 0) = some r ∧
        r.matched.isSome = true ∧
        ¬ ∃ f ∈ [fixAt 0 10000000],
            (odomAt 0 0).header.stamp.toSec - 0.01 ≤ f.header.stamp.toSec ∧
            f.header.stamp.toSec ≤ (odomAt 0 0).header.stamp.toSec + 0.01) := by
  constructor
  · refine ⟨List.pairwise_singleton _ _, _,
      vio_callback_of_future countingEngine 1 _ (odomAt 35 248000000) []
        (fixAt 35 258000000) [] le_rfl rfl (by simp) (future_35_248_35_258 time_35_248), rfl,
      fixAt 35 258000000, List.mem_singleton.mpr rfl, ?_, ?_⟩
    · rw [seconds_fixAt, seconds_odomAt]; norm_num
    · rw [seconds_fixAt, seconds_odomAt]; norm_num
  · refine ⟨List.pairwise_singleton _ _, _,
      vio_callback_of_match countingEngine 1 _ (odomAt 0 0) [] (fixAt 0 10000000) []
        le_rfl rfl (by simp) (inWindow_0_0_01 time_0), rfl, ?_⟩
    rintro ⟨f, hf, _, h2⟩
    rw [List.mem_singleton] at hf
    subst hf
    rw [stamp_0_01, time_0] at h2
    norm_num at h2

/-- C10, amended: for every buffer whose time stamps are non-decreasing from
head to tail and every odometry time `t`, the run reports a match exactly
when some buffered fix passes the window test of the code,
`t - 0.01 <= g <= t + 0.01` evaluated on the doubles that `toSec()` returns
with the difference and the sum rounded; the reported fix is the oldest fix
that passes that test.  The oldest need not be the closest: on
`[9.995, 10.001]` at `t = 10.0` the match is the fix of 9.995. -/
theorem vio_callback_complete_on_sorted :
    (∀ {σ : Type} (E : GlobalOptimization σ) (fuel : Nat) (n : Node σ) (pose_msg : Odometry),
      n.gpsQueue.length ≤ fuel →
      n.gpsQueue.Pairwise (fun a b => a.header.stamp.toSec ≤ b.header.stamp.toSec) →
      ∃ r, vio_callback E fuel n pose_msg = some r ∧
        (r.matched.isSome = true ↔
          ∃ f ∈ n.gpsQueue,
            dsub pose_msg.header.stamp.toSec (fl 0.01) ≤ f.header.stamp.toSec ∧
            f.header.stamp.toSec ≤ dadd pose_msg.header.stamp.toSec (fl 0.01)) ∧
        ∀ f, r.matched = some f →
          (dsub pose_msg.header.stamp.toSec (fl 0.01) ≤ f.header.stamp.toSec ∧
            f.header.stamp.toSec ≤ dadd pose_msg.header.stamp.toSec (fl 0.01)) ∧
          ∃ pre post, n.gpsQueue = pre ++ f :: post ∧
            ∀ x ∈ pre,
              ¬ (dsub pose_msg.header.stamp.toSec (fl 0.01) ≤ x.header.stamp.toSec ∧
                x.header.stamp.toSec ≤ dadd pose_msg.header.stamp.toSec (fl 0.01))) ∧
    (∀ {σ : Type} (E : GlobalOptimization σ) (fuel : Nat) (n : Node σ),
      2 ≤ fuel → n.gpsQueue = [fixAt 9 995000000, fixAt 10 1000000] →
      ∃ r, vio_callback E fuel n (odomAt 10 0) = some r ∧
        r.matched = some (fixAt 9 995000000) ∧
        |(fixAt 10 1000000).header.stamp.toSec - (odomAt 10 0).header.stamp.toSec| <
          |(fixAt 9 995000000).header.stamp.toSec - (odomAt 10 0).header.stamp.toSec|) := by
  constructor
  · intro σ E fuel n pose_msg h hsorted
    refine ⟨_, vio_callback_eq E fuel n pose_msg h, ?_⟩
    obtain ⟨k, d, hq, hk, hcase⟩ := scanResult_cases E pose_msg.header.stamp.toSec
      (enterLoop
        (E.inputOdom pose_msg.header.stamp.toSec (vio_t pose_msg) (vio_q pose_msg)
          n.globalEstimator)
        n.gpsQueue
        [Event.inputOdom pose_msg.header.stamp.toSec (vio_t pose_msg) (vio_q pose_msg)])
    have hq' : n.gpsQueue = k ++ d := hq
    rcases hcase with ⟨hd, hr⟩ | ⟨f, tl, hd, hw, hr⟩ | ⟨f, tl, hd, hns, hf, hr⟩
    · rw [hr]
      refine ⟨?_, ?_⟩
      · simp only [afterLoop, enterLoop, Option.isSome_none, Bool.false_eq_true, false_iff]
        rintro ⟨x, hx, hxw⟩
        rw [hq', hd, List.append_nil] at hx
        exact not_inWindow_of_stale (hk x hx) hxw
      · intro f hf; simp [afterLoop, enterLoop] at hf
    · rw [hr]
      refine ⟨?_, ?_⟩
      · simp only [afterLoop, Option.isSome_some, true_iff]
        exact ⟨f, by rw [hq', hd]; simp, hw⟩
      · intro f' hf'
        have hff : f = f' := by simpa [afterLoop] using hf'
        subst hff
        exact ⟨hw, k, tl, by rw [hq', hd], fun x hx => not_inWindow_of_stale (hk x hx)⟩
    · rw [hr]
      refine ⟨?_, ?_⟩
      · simp only [afterLoop, enterLoop, Option.isSome_none, Bool.false_eq_true, false_iff]
        rintro ⟨x, hx, hxw⟩
        rw [hq', hd, List.mem_append] at hx
        rcases hx with hx | hx
        · exact not_inWindow_of_stale (hk x hx) hxw
        · rw [hq', hd] at hsorted
          have hs2 := (List.pairwise_append.mp hsorted).2.1
          have hfx : f.header.stamp.toSec ≤ x.header.stamp.toSec := by
            rcases List.mem_cons.mp hx with rfl | hx'
            · exact le_rfl
            · exact List.rel_of_pairwise_cons hs2 hx'
          have hf' : dadd pose_msg.header.stamp.toSec (fl 0.01) < f.header.stamp.toSec := hf
          exact absurd hxw.2 (not_le.mpr (lt_of_lt_of_le hf' hfx))
      · intro f hf; simp [afterLoop, enterLoop] at hf
  · intro σ E fuel n h hq
    refine ⟨_, vio_callback_of_match E fuel n (odomAt 10 0) [] (fixAt 9 995000000) [fixAt 10 1000000]
      (by rw [hq]; exact h) hq (by simp) (inWindow_10_9_995 time_10), rfl, ?_⟩
    rw [stamp_10_001, stamp_9_995, time_10]
    norm_num [abs_lt, abs_of_neg, abs_of_pos]

/-- Witness of C10 (amended): the counting engine on the ordered buffer
`[9.5, 10.005, 10.5]` at `t = 10.0` with fuel 3. -/
theorem vio_callback_complete_on_sorted_witness :
    ([fixAt 9 500000000, fixAt 10 5000000, fixAt 10 500000000].length ≤ 3) ∧
    ([fixAt 9 500000000, fixAt 10 5000000, fixAt 10 500000000].Pairwise
      (fun a b => a.header.stamp.toSec ≤ b.header.stamp.toSec)) ∧
    ∃ r, vio_callback countingEngine 3
        { globalEstimator := 0, gpsQueue := [fixAt 9 500000000, fixAt 10 5000000, fixAt 10 500000000],
          last_vio_t := -1, shared_time := 0 } (odomAt 10 0) = some r ∧
      (r.matched.isSome = true ↔
        ∃ f ∈ [fixAt 9 500000000, fixAt 10 5000000, fixAt 10 500000000],
          dsub (odomAt 10 0).header.stamp.toSec (fl 0.01) ≤ f.header.stamp.toSec ∧
          f.header.stamp.toSec ≤ dadd (odomAt 10 0).header.stamp.toSec (fl 0.01)) ∧
      ∀ f, r.matched = some f →
        (dsub (odomAt 10 0).header.stamp.toSec (fl 0.01) ≤ f.header.stamp.toSec ∧
          f.header.stamp.toSec ≤ dadd (odomAt 10 0).header.stamp.toSec (fl 0.01)) ∧
        ∃ pre post, [fixAt 9 500000000, fixAt 10 5000000, fixAt 10 500000000] = pre ++ f :: post ∧
          ∀ x ∈ pre,
            ¬ (dsub (odomAt 10 0).header.stamp.toSec (fl 0.01) ≤ x.header.stamp.toSec ∧
              x.header.stamp.toSec ≤ dadd (odomAt 10 0).header.stamp.toSec (fl 0.01)) :=
  ⟨by decide,
   by
    simp only [List.pairwise_cons, List.mem_cons, List.mem_singleton, forall_eq_or_imp,
      forall_eq, stamp_9_5, stamp_10_005, stamp_10_5]
    norm_num,
   vio_callback_complete_on_sorted.1 countingEngine 3
     { globalEstimator := 0, gpsQueue := [fixAt 9 500000000, fixAt 10 5000000, fixAt 10 500000000],
       last_vio_t := -1, shared_time := 0 } (odomAt 10 0) (by decide)
     (by
      simp only [List.pairwise_cons, List.mem_cons, List.mem_singleton, forall_eq_or_imp,
        forall_eq, stamp_9_5, stamp_10_005, stamp_10_5]
      norm_num)⟩

/-! ## Future deferral -/

/-- C4, as stated, fails.  At `t = 1700000000.0` the fix stamped 10000001 ns
later has `g > t + 0.01`, yet it is matched and popped: at that magnitude
neighbouring doubles are `2 ^ -22` s apart, the stamp and `t + 0.01` round to
the same double, and the fix passes `gps_t <= t + 0.01`.  The fix of 35.258
at the head of the buffer is exactly 0.01 s younger than the sample of
`t' = 35.248`, so it has `t' - 0.01 <= g <= t' + 0.01`, and is not matched: the
code obtains `35.257999999999996` for `t' + 0.01`.  And when `g` and `t` are
read as the doubles that `toSec()` returns, on the buffer `[0.01]` at
`t = 0.0` the stamp, the double `0.01`, lies above `t + 0.01`, yet the fix is
popped. -/
theorem fix_beyond_exact_window_popped :
    (∃ r, vio_callback countingEngine 1
        { globalEstimator := 0, gpsQueue := [fixAt 1700000000 10000001], last_vio_t := -1,
          shared_time := 0 } (odomAt 1700000000 0) = some r ∧
      (odomAt 1700000000 0).header.stamp.seconds + 0.01 <
        (fixAt 1700000000 10000001).header.stamp.seconds ∧
      r.node.gpsQueue = []) ∧
    (∃ r, vio_callback countingEngine 1
        { globalEstimator := 0, gpsQueue := [fixAt 35 258000000], last_vio_t := -1,
          shared_time := 0 } (odomAt 35 248000000) = some r ∧
      (odomAt 35 248000000).header.stamp.seconds - 0.01 ≤
        (fixAt 35 258000000).header.stamp.seconds ∧
      (fixAt 35 258000000).header.stamp.seconds ≤
        (odomAt 35 248000000).header.stamp.seconds + 0.01 ∧
      r.matched = none) ∧
    (∃ r, vio_callback countingEngine 1
        { globalEstimator := 0, gpsQueue := [fixAt 0 10000000], last_vio_t := -1,
          shared_time := 0 } (odomAt 0 0) = some r ∧
      (odomAt 0 0).header.stamp.toSec + 0.01 < (fixAt 0 10000000).header.stamp.toSec ∧
      r.node.gpsQueue = []) := by
  refine ⟨?_, ?_, ?_⟩
  · refine ⟨_, vio_callback_of_match countingEngine 1 _ (odomAt 1700000000 0) []
      (fixAt 1700000000 10000001) [] le_rfl rfl (by simp)
      (inWindow_epoch_epoch_after time_epoch), ?_, rfl⟩
    rw [seconds_fixAt, seconds_odomAt]; norm_num
  · refine ⟨_, vio_callback_of_future countingEngine 1 _ (odomAt 35 248000000) []
      (fixAt 35 258000000) [] le_rfl rfl (by simp) (future_35_248_35_258 time_35_248),
      ?_, ?_, rfl⟩
    · rw [seconds_fixAt, seconds_odomAt]; norm_num
    · rw [seconds_fixAt, seconds_odomAt]; norm_num
  · refine ⟨_, vio_callback_of_match countingEngine 1 _ (odomAt 0 0) [] (fixAt 0 10000000) []
      le_rfl rfl (by simp) (inWindow_0_0_01 time_0), ?_, rfl⟩
    rw [stamp_0_01, time_0]
    norm_num

/-- C4, amended: for every buffer and every odometry time `t`, the run pops
a prefix of the buffer made only of fixes that are not above the double
`t + 0.01` the code computes, so the fixes above that double are the same, in
the same order, before and after the run; and a fix at the head of the buffer
(a deferred one in particular) is matched, and popped, by a run at any `t'`
whose window test it passes, `t' - 0.01 <= g <= t' + 0.01` evaluated on the
doubles that `toSec()` returns with the difference and the sum rounded. -/
theorem vio_callback_defers_future {σ : Type} (E : GlobalOptimization σ) (fuel : Nat)
    (n : Node σ) (pose_msg : Odometry) (h : n.gpsQueue.length ≤ fuel) :
    (∃ r, vio_callback E fuel n pose_msg = some r ∧
      (∃ popped, n.gpsQueue = popped ++ r.node.gpsQueue ∧
        ∀ x ∈ popped, x.header.stamp.toSec ≤ dadd pose_msg.header.stamp.toSec (fl 0.01)) ∧
      n.gpsQueue.filter
          (fun f => decide (dadd pose_msg.header.stamp.toSec (fl 0.01) < f.header.stamp.toSec)) =
        r.node.gpsQueue.filter
          (fun f =>
            decide (dadd pose_msg.header.stamp.toSec (fl 0.01) < f.header.stamp.toSec))) ∧
    (∀ (f : NavSatFix) (tl : List NavSatFix) (pose_msg' : Odometry),
      n.gpsQueue = f :: tl →
      dsub pose_msg'.header.stamp.toSec (fl 0.01) ≤ f.header.stamp.toSec →
      f.header.stamp.toSec ≤ dadd pose_msg'.header.stamp.toSec (fl 0.01) →
      ∃ r', vio_callback E fuel n pose_msg' = some r' ∧
        r'.matched = some f ∧ r'.node.gpsQueue = tl) := by
  refine ⟨?_, ?_⟩
  · refine ⟨_, vio_callback_eq E fuel n pose_msg h, ?_⟩
    obtain ⟨k, d, hq, hk, hcase⟩ := scanResult_cases E pose_msg.header.stamp.toSec
      (enterLoop
        (E.inputOdom pose_msg.header.stamp.toSec (vio_t pose_msg) (vio_q pose_msg)
          n.globalEstimator)
        n.gpsQueue
        [Event.inputOdom pose_msg.header.stamp.toSec (vio_t pose_msg) (vio_q pose_msg)])
    have hq' : n.gpsQueue = k ++ d := hq
    have hkle : ∀ x ∈ k,
        x.header.stamp.toSec ≤ dadd pose_msg.header.stamp.toSec (fl 0.01) :=
      fun x hx => not_lt.mp (not_future_of_stale (hk x hx))
    have hkf := filter_future_of_stale pose_msg.header.stamp.toSec k hk
    unfold future at hkf
    rcases hcase with ⟨hd, hr⟩ | ⟨f, tl, hd, hw, hr⟩ | ⟨f, tl, hd, hns, hf, hr⟩
    · rw [hr]
      refine ⟨⟨k, by simpa [afterLoop, hd] using hq', hkle⟩, ?_⟩
      simp [afterLoop, hq', hd, hkf]
    · rw [hr]
      refine ⟨⟨k ++ [f], by simpa [afterLoop, hd] using hq', ?_⟩, ?_⟩
      · intro x hx
        rcases List.mem_append.mp hx with hx | hx
        · exact hkle x hx
        · rw [List.mem_singleton] at hx; subst hx; exact hw.2
      · have hnf : ¬ dadd pose_msg.header.stamp.toSec (fl 0.01) < f.header.stamp.toSec :=
          not_future_of_inWindow hw
        simp [afterLoop, hq', hd, hkf, hnf]
    · rw [hr]
      refine ⟨⟨k, by simpa [afterLoop, hd] using hq', hkle⟩, ?_⟩
      simp [afterLoop, hq', hd, hkf]
  · intro f tl pose_msg' hq h1 h2
    exact ⟨_, vio_callback_of_match E fuel n pose_msg' [] f tl h hq (by simp) ⟨h1, h2⟩,
      rfl, rfl⟩

/-- Witness of C4 (amended): the counting engine on `[9.5, 10.005, 10.5]` at
`t = 10.0` with fuel 3; the head of that buffer is matched by a run at
`t' = 9.5`. -/
theorem vio_callback_defers_future_witness :
    ([fixAt 9 500000000, fixAt 10 5000000, fixAt 10 500000000].length ≤ 3) ∧
    (∃ r, vio_callback countingEngine 3
        { globalEstimator := 0, gpsQueue := [fixAt 9 500000000, fixAt 10 5000000, fixAt 10 500000000],
          last_vio_t := -1, shared_time := 0 } (odomAt 10 0) = some r ∧
      (∃ popped, [fixAt 9 500000000, fixAt 10 5000000, fixAt 10 500000000] = popped ++ r.node.gpsQueue ∧
        ∀ x ∈ popped,
          x.header.stamp.toSec ≤ dadd (odomAt 10 0).header.stamp.toSec (fl 0.01)) ∧
      [fixAt 9 500000000, fixAt 10 5000000, fixAt 10 500000000].filter
          (fun f =>
            decide (dadd (odomAt 10 0).header.stamp.toSec (fl 0.01) < f.header.stamp.toSec)) =
        r.node.gpsQueue.filter
          (fun f =>
            decide
              (dadd (odomAt 10 0).header.stamp.toSec (fl 0.01) < f.header.stamp.toSec))) ∧
    (dsub (odomAt 9 500000000).header.stamp.toSec (fl 0.01) ≤
      (fixAt 9 500000000).header.stamp.toSec) ∧
    ((fixAt 9 500000000).header.stamp.toSec ≤
      dadd (odomAt 9 500000000).header.stamp.toSec (fl 0.01)) ∧
    (∃ r', vio_callback countingEngine 3
        { globalEstimator := 0, gpsQueue := [fixAt 9 500000000, fixAt 10 5000000, fixAt 10 500000000],
          last_vio_t := -1, shared_time := 0 } (odomAt 9 500000000) = some r' ∧
      r'.matched = some (fixAt 9 500000000) ∧ r'.node.gpsQueue = [fixAt 10 5000000, fixAt 10 500000000]) :=
  ⟨by decide,
   (vio_callback_defers_future countingEngine 3
     { globalEstimator := 0, gpsQueue := [fixAt 9 500000000, fixAt 10 5000000, fixAt 10 500000000],
       last_vio_t := -1, shared_time := 0 } (odomAt 10 0) (by decide)).1,
   (inWindow_9_5_9_5 time_9_5).1, (inWindow_9_5_9_5 time_9_5).2,
   (vio_callback_defers_future countingEngine 3
     { globalEstimator := 0, gpsQueue := [fixAt 9 500000000, fixAt 10 5000000, fixAt 10 500000000],
       last_vio_t := -1, shared_time := 0 } (odomAt 10 0) (by decide)).2
     (fixAt 9 500000000) [fixAt 10 5000000, fixAt 10 500000000] (odomAt 9 500000000) rfl
     (inWindow_9_5_9_5 time_9_5).1 (inWindow_9_5_9_5 time_9_5).2⟩

/-! ## Draining of stale fixes -/

/-- C3, as stated, fails, for two reasons.  The loop inspects only the head
of the buffer: on `[10.5, 9.0]` at `t = 10.0` the scan stops at the future fix
of 10.5, and the fix of 9.0, which has `g < t - 0.01`, is still in the buffer
after the run.  And the staleness test is made on rounded doubles: at
`t = 1700000000.0` the fix stamped 10000100 ns earlier has `g < t - 0.01`, yet
it is reported as the match, its stamp and `t - 0.01` rounding to the same
double; when `g` and `t` are read as the doubles that `toSec()` returns, on
the ordered buffer `[0.0, 0.0]` at `t = 0.01` the code computes `t - 0.01` as
0, whereas `t`, the double `0.01`, lies above 0.01, so the two fixes have
`g < t - 0.01`, yet the first is reported as the match and the second stays in
the buffer. -/
theorem stale_fix_remains_or_matches :
    (∃ r, vio_callback countingEngine 2
        { globalEstimator := 0, gpsQueue := [fixAt 10 500000000, fixAt 9 0],
          last_vio_t := -1, shared_time := 0 } (odomAt 10 0) = some r ∧
      r.node.gpsQueue = [fixAt 10 500000000, fixAt 9 0] ∧
      ∃ f ∈ r.node.gpsQueue,
        f.header.stamp.toSec < (odomAt 10 0).header.stamp.toSec - 0.01 ∧
        f.header.stamp.seconds < (odomAt 10 0).header.stamp.seconds - 0.01) ∧
    ((fixAt 1699999999 989999900).header.stamp.seconds <
        (odomAt 1700000000 0).header.stamp.seconds - 0.01 ∧
      ∃ r, vio_callback countingEngine 1
          { globalEstimator := 0, gpsQueue := [fixAt 1699999999 989999900],
            last_vio_t := -1, shared_time := 0 } (odomAt 1700000000 0) = some r ∧
        r.matched = some (fixAt 1699999999 989999900)) ∧
    ([fixAt 0 0, fixAt 0 0].Pairwise
        (fun a b => a.header.stamp.toSec ≤ b.header.stamp.toSec) ∧
      (fixAt 0 0).header.stamp.toSec < (odomAt 0 10000000).header.stamp.toSec - 0.01 ∧
      ∃ r, vio_callback countingEngine 2
          { globalEstimator := 0, gpsQueue := [fixAt 0 0, fixAt 0 0],
            last_vio_t := -1, shared_time := 0 } (odomAt 0 10000000) = some r ∧
        r.matched = some (fixAt 0 0) ∧ r.node.gpsQueue = [fixAt 0 0]) := by
  refine ⟨⟨_, vio_callback_of_future countingEngine 2 _ (odomAt 10 0) [] (fixAt 10 500000000)
      [fixAt 9 0] le_rfl rfl (by simp) (future_10_10_5 time_10), rfl, fixAt 9 0, by simp, ?_, ?_⟩,
    ⟨?_, _, vio_callback_of_match countingEngine 1 _ (odomAt 1700000000 0) []
      (fixAt 1699999999 989999900) [] le_rfl rfl (by simp)
      (inWindow_epoch_epoch_before time_epoch), rfl⟩,
    ?_, ?_, _, vio_callback_of_match countingEngine 2 _ (odomAt 0 10000000) [] (fixAt 0 0)
      [fixAt 0 0] le_rfl rfl (by simp) (inWindow_tol_0_0 time_0_01), rfl, rfl⟩
  · rw [stamp_9_0, time_10]; norm_num
  · rw [seconds_fixAt, seconds_odomAt]; norm_num
  · rw [seconds_fixAt, seconds_odomAt]; norm_num
  · simp
  · rw [stamp_0_0, time_0_01]; norm_num

/-- C3, amended: for every buffer whose time stamps are non-decreasing from
head to tail and every odometry time `t`, no fix below the double `t - 0.01`
that the code computes remains in the buffer after the run; for a buffer in
any order this holds of the head of the buffer after a run that reports no
match; and a fix below the double `t - 0.01` is not the match of a run at any
time `t' >= t`, whatever the buffer then holds. -/
theorem vio_callback_drains_stale {σ : Type} (E : GlobalOptimization σ) (fuel : Nat)
    (n : Node σ) (pose_msg : Odometry) (h : n.gpsQueue.length ≤ fuel) :
    (∃ r, vio_callback E fuel n pose_msg = some r ∧
      (r.matched = none → ∀ f, r.node.gpsQueue.head? = some f →
        ¬ f.header.stamp.toSec < dsub pose_msg.header.stamp.toSec (fl 0.01)) ∧
      (n.gpsQueue.Pairwise (fun a b => a.header.stamp.toSec ≤ b.header.stamp.toSec) →
        ∀ f ∈ r.node.gpsQueue,
          ¬ f.header.stamp.toSec < dsub pose_msg.header.stamp.toSec (fl 0.01))) ∧
    (∀ (t : ℚ) (f : NavSatFix), f.header.stamp.toSec < dsub t (fl 0.01) →
      t ≤ pose_msg.header.stamp.toSec →
      ∃ r, vio_callback E fuel n pose_msg = some r ∧ r.matched ≠ some f) := by
  obtain ⟨k, d, hq, hk, hcase⟩ := scanResult_cases E pose_msg.header.stamp.toSec
    (enterLoop
      (E.inputOdom pose_msg.header.stamp.toSec (vio_t pose_msg) (vio_q pose_msg)
        n.globalEstimator)
      n.gpsQueue
      [Event.inputOdom pose_msg.header.stamp.toSec (vio_t pose_msg) (vio_q pose_msg)])
  have hq' : n.gpsQueue = k ++ d := hq
  constructor
  · refine ⟨_, vio_callback_eq E fuel n pose_msg h, ?_⟩
    rcases hcase with ⟨hd, hr⟩ | ⟨f, tl, hd, hw, hr⟩ | ⟨f, tl, hd, hns, hf, hr⟩
    · rw [hr]
      simp [afterLoop]
    · rw [hr]
      refine ⟨?_, ?_⟩
      · intro hm
        simp [afterLoop] at hm
      · intro hsorted x hx
        rw [hq', hd] at hsorted
        have hs2 := (List.pairwise_append.mp hsorted).2.1
        have hfx : f.header.stamp.toSec ≤ x.header.stamp.toSec :=
          List.rel_of_pairwise_cons hs2 (by simpa [afterLoop] using hx)
        exact not_lt.mpr (le_trans hw.1 hfx)
    · rw [hr]
      refine ⟨?_, ?_⟩
      · intro _ x hx
        have : f = x := by simpa [afterLoop] using hx
        subst this
        exact hns
      · intro hsorted x hx
        rw [hq', hd] at hsorted
        have hs2 := (List.pairwise_append.mp hsorted).2.1
        have hx' : x ∈ f :: tl := by simpa [afterLoop] using hx
        have hfx : f.header.stamp.toSec ≤ x.header.stamp.toSec := by
          rcases List.mem_cons.mp hx' with rfl | hx''
          · exact le_rfl
          · exact List.rel_of_pairwise_cons hs2 hx''
        have hns' : dsub pose_msg.header.stamp.toSec (fl 0.01) ≤ f.header.stamp.toSec :=
          not_lt.mp hns
        exact not_lt.mpr (le_trans hns' hfx)
  · intro t f hst htt
    refine ⟨_, vio_callback_eq E fuel n pose_msg h, ?_⟩
    have hst' : stale pose_msg.header.stamp.toSec f :=
      lt_of_lt_of_le hst (dsub_mono htt)
    rcases hcase with ⟨hd, hr⟩ | ⟨g, tl, hd, hw, hr⟩ | ⟨g, tl, hd, hns, hf, hr⟩
    · rw [hr]; simp [afterLoop, enterLoop]
    · rw [hr]
      intro hm
      have hgf : g = f := by simpa [afterLoop] using hm
      subst hgf
      exact not_inWindow_of_stale hst' hw
    · rw [hr]; simp [afterLoop, enterLoop]

/-- Witness of C3 (amended): the counting engine on `[9.5, 10.005, 10.5]`
at `t = 10.0` with fuel 3; the fix of 9.5, stale at 10.0, is not the match. -/
theorem vio_callback_drains_stale_witness :
    ([fixAt 9 500000000, fixAt 10 5000000, fixAt 10 500000000].length ≤ 3) ∧
    (∃ r, vio_callback countingEngine 3
        { globalEstimator := 0, gpsQueue := [fixAt 9 500000000, fixAt 10 5000000, fixAt 10 500000000],
          last_vio_t := -1, shared_time := 0 } (odomAt 10 0) = some r ∧
      (r.matched = none → ∀ f, r.node.gpsQueue.head? = some f →
        ¬ f.header.stamp.toSec < dsub (odomAt 10 0).header.stamp.toSec (fl 0.01)) ∧
      ([fixAt 9 500000000, fixAt 10 5000000, fixAt 10 500000000].Pairwise
          (fun a b => a.header.stamp.toSec ≤ b.header.stamp.toSec) →
        ∀ f ∈ r.node.gpsQueue,
          ¬ f.header.stamp.toSec < dsub (odomAt 10 0).header.stamp.toSec (fl 0.01))) ∧
    ((fixAt 9 500000000).header.stamp.toSec < dsub 10 (fl 0.01)) ∧
    ((10 : ℚ) ≤ (odomAt 10 0).header.stamp.toSec) ∧
    (∃ r, vio_callback countingEngine 3
        { globalEstimator := 0, gpsQueue := [fixAt 9 500000000, fixAt 10 5000000, fixAt 10 500000000],
          last_vio_t := -1, shared_time := 0 } (odomAt 10 0) = some r ∧
      r.matched ≠ some (fixAt 9 500000000)) :=
  ⟨by decide,
   (vio_callback_drains_stale countingEngine 3
     { globalEstimator := 0, gpsQueue := [fixAt 9 500000000, fixAt 10 5000000, fixAt 10 500000000],
       last_vio_t := -1, shared_time := 0 } (odomAt 10 0) (by decide)).1,
   stale_10_9_5 rfl, le_of_eq time_10.symm,
   (vio_callback_drains_stale countingEngine 3
     { globalEstimator := 0, gpsQueue := [fixAt 9 500000000, fixAt 10 5000000, fixAt 10 500000000],
       last_vio_t := -1, shared_time := 0 } (odomAt 10 0) (by decide)).2
     10 (fixAt 9 500000000) (stale_10_9_5 rfl) (le_of_eq time_10.symm)⟩

/-! ## Accuracy normalisation -/

theorem Double.zero_eq : (0 : Double) = Double.finite 0 := by
  show Double.finite ((0 : ℕ) : ℚ) = Double.finite 0
  rw [Nat.cast_zero]

theorem Double.one_eq : (1 : Double) = Double.finite 1 := by
  show Double.finite ((1 : ℕ) : ℚ) = Double.finite 1
  rw [Nat.cast_one]

/-- Lines 124-126 on each kind of double. -/
theorem pos_accuracy_cases (f : NavSatFix) :
    (Double.le (f.position_covariance 0) 0 = true → pos_accuracy f = 1) ∧
    (Double.lt 0 (f.position_covariance 0) = true →
      pos_accuracy f = f.position_covariance 0) ∧
    (f.position_covariance 0 = Double.nan → pos_accuracy f = Double.nan) ∧
    (f.position_covariance 0 ≠ Double.nan → Double.lt 0 (pos_accuracy f) = true) := by
  unfold pos_accuracy
  dsimp only
  generalize f.position_covariance 0 = c
  cases c with
  | nan => simp [Double.le, Double.lt, Double.zero_eq]
  | posInf => simp [Double.le, Double.lt, Double.zero_eq]
  | negInf => simp [Double.le, Double.lt, Double.zero_eq, Double.one_eq]
  | finite q =>
    by_cases hq0 : q ≤ 0
    · simp [Double.le, Double.lt, Double.zero_eq, Double.one_eq, hq0]
    · have hq1 : 0 ≤ q := le_of_lt (not_le.mp hq0)
      simp [Double.le, Double.lt, Double.zero_eq, hq0, hq1]

/-- C5, as stated, fails: a fix whose accuracy `position_covariance[0]` is
NaN is neither `<= 0` nor `> 0`; when it is matched, the test
`pos_accuracy <= 0` of line 125 is false and NaN itself is handed to
`inputGPS`, which is not `> 0`. -/
theorem nan_accuracy_forwarded :
    ∃ r, vio_callback countingEngine 1
        { globalEstimator := 0, gpsQueue := [fixWithAccuracy 10 0 Double.nan],
          last_vio_t := -1, shared_time := 0 } (odomAt 10 0) = some r ∧
      r.matched = some (fixWithAccuracy 10 0 Double.nan) ∧
      r.trace.filter Event.isInputGPS = [Event.inputGPS 10.0 0 0 0 Double.nan] ∧
      Double.lt 0 Double.nan = false := by
  have hw : inWindow (odomAt 10 0).header.stamp.toSec (fixWithAccuracy 10 0 Double.nan) :=
    inWindow_10_10_0 time_10
  refine ⟨_, vio_callback_of_match countingEngine 1 _ (odomAt 10 0) []
    (fixWithAccuracy 10 0 Double.nan) [] le_rfl rfl (by simp) hw, rfl, ?_, rfl⟩
  simp only [time_10]
  norm_num [dropTrace, epilogue, Event.isInputGPS, fixWithAccuracy, pos_accuracy, Double.le]

/-- C5, amended: when a run of `vio_callback` matches a fix, its one call of
`inputGPS` carries the odometry time, the position of the fix and an accuracy
that is exactly 1 when `position_covariance[0] <= 0` (0 included), is
`position_covariance[0]` unchanged when that is `> 0`, and is NaN when that is
NaN; the forwarded accuracy is `> 0` unless `position_covariance[0]` is NaN;
the engine state is the one this call produces.  A fix with accuracy 0 that
matches is forwarded with accuracy 1. -/
theorem vio_callback_accuracy :
    (∀ {σ : Type} (E : GlobalOptimization σ) (fuel : Nat) (n : Node σ) (pose_msg : Odometry),
      n.gpsQueue.length ≤ fuel →
      ∃ r, vio_callback E fuel n pose_msg = some r ∧
        ∀ f, r.matched = some f →
          ∃ a : Double,
            r.trace.filter Event.isInputGPS =
              [Event.inputGPS pose_msg.header.stamp.toSec f.latitude f.longitude
                f.altitude a] ∧
            r.node.globalEstimator =
              E.inputGPS pose_msg.header.stamp.toSec f.latitude f.longitude f.altitude a
                (E.inputOdom pose_msg.header.stamp.toSec (vio_t pose_msg) (vio_q pose_msg)
                  n.globalEstimator) ∧
            (Double.le (f.position_covariance 0) 0 = true → a = 1) ∧
            (Double.lt 0 (f.position_covariance 0) = true → a = f.position_covariance 0) ∧
            (f.position_covariance 0 = Double.nan → a = Double.nan) ∧
            (f.position_covariance 0 ≠ Double.nan → Double.lt 0 a = true)) ∧
    (∀ {σ : Type} (E : GlobalOptimization σ) (fuel : Nat) (n : Node σ),
      1 ≤ fuel → n.gpsQueue = [fixAt 10 0] → (fixAt 10 0).position_covariance 0 = 0 ∧
      ∃ r, vio_callback E fuel n (odomAt 10 0) = some r ∧
        r.trace.filter Event.isInputGPS = [Event.inputGPS 10.0 0 0 0 1]) := by
  constructor
  · intro σ E fuel n pose_msg h
    refine ⟨_, vio_callback_eq E fuel n pose_msg h, ?_⟩
    obtain ⟨k, d, hq, hk, hcase⟩ := scanResult_cases E pose_msg.header.stamp.toSec
      (enterLoop
        (E.inputOdom pose_msg.header.stamp.toSec (vio_t pose_msg) (vio_q pose_msg)
          n.globalEstimator)
        n.gpsQueue
        [Event.inputOdom pose_msg.header.stamp.toSec (vio_t pose_msg) (vio_q pose_msg)])
    rcases hcase with ⟨_, hr⟩ | ⟨f, tl, hd, hw, hr⟩ | ⟨f, tl, _, _, _, hr⟩
    · rw [hr]; intro f hf; simp [afterLoop, enterLoop] at hf
    · rw [hr]
      intro f' hf'
      have hff : f = f' := by simpa [afterLoop] using hf'
      subst hff
      obtain ⟨h1, h2, h3, h4⟩ := pos_accuracy_cases f
      refine ⟨pos_accuracy f, ?_, ?_, h1, h2, h3, h4⟩
      · simp [afterLoop, epilogue, enterLoop, Event.isInputGPS, filter_isInputGPS_dropTrace]
      · simp [afterLoop, enterLoop]
    · rw [hr]; intro f hf; simp [afterLoop, enterLoop] at hf
  · intro σ E fuel n h hq
    refine ⟨rfl, _, vio_callback_of_match E fuel n (odomAt 10 0) [] (fixAt 10 0) []
      (by rw [hq]; exact h) hq (by simp) (inWindow_10_10_0 time_10), ?_⟩
    simp only [time_10, pos_accuracy_fixAt]
    norm_num [dropTrace, epilogue, Event.isInputGPS, fixAt]

/-- Witness of C5 (amended): the counting engine on the buffer `[10.0]`, a
fix of accuracy 0, at `t = 10.0` with fuel 1. -/
theorem vio_callback_accuracy_witness :
    (1 ≤ 1) ∧ (fixAt 10 0).position_covariance 0 = 0 ∧
    ∃ r, vio_callback countingEngine 1
        { globalEstimator := 0, gpsQueue := [fixAt 10 0], last_vio_t := -1,
          shared_time := 0 } (odomAt 10 0) = some r ∧
      r.trace.filter Event.isInputGPS = [Event.inputGPS 10.0 0 0 0 1] :=
  ⟨le_rfl, vio_callback_accuracy.2 countingEngine 1 _ le_rfl rfl⟩

/-! ## Calls into the fusion engine -/

/-- C7: `GPS_callback` appends the fix at the tail of the queue, leaves the
entries before it as they were and makes the queue one longer; a run of
`vio_callback` leaves a suffix of the queue it started from, the fixes it
popped being the prefix in front of it; hence, after any list of pushes and
scans that starts on the empty queue, the fixes popped so far, in the order of
popping, followed by the queue, are the fixes pushed so far in the order of
pushing (which is the order of delivery). -/
theorem gpsQueue_fifo :
    (∀ {σ : Type} (n : Node σ) (GPS_msg : NavSatFix),
      (GPS_callback n GPS_msg).1.gpsQueue = n.gpsQueue ++ [GPS_msg] ∧
      (GPS_callback n GPS_msg).1.gpsQueue.length = n.gpsQueue.length + 1 ∧
      (GPS_callback n GPS_msg).2.filterMap Event.pushed? = [GPS_msg]) ∧
    (∀ {σ : Type} (E : GlobalOptimization σ) (fuel : Nat) (n : Node σ) (pose_msg : Odometry),
      n.gpsQueue.length ≤ fuel →
      ∃ r, vio_callback E fuel n pose_msg = some r ∧
        r.node.gpsQueue <:+ n.gpsQueue ∧
        n.gpsQueue = r.trace.filterMap Event.popped? ++ r.node.gpsQueue) ∧
    (∀ {σ : Type} (E : GlobalOptimization σ) (fuel : Nat) (n : Node σ) (ins : List Input),
      n.gpsQueue = [] → ins.length ≤ fuel →
      ∃ n' tr, spin E fuel n ins = some (n', tr) ∧
        tr.filterMap Event.pushed? = ins.filterMap Input.fix? ∧
        tr.filterMap Event.popped? <+: tr.filterMap Event.pushed? ∧
        tr.filterMap Event.pushed? = tr.filterMap Event.popped? ++ n'.gpsQueue) := by
  refine ⟨?_, ?_, ?_⟩
  · intro σ n GPS_msg
    simp [GPS_callback, Event.pushed?]
  · intro σ E fuel n pose_msg h
    obtain ⟨r, hr, _, _, hq⟩ := vio_callback_summary E fuel n pose_msg h
    exact ⟨r, hr, ⟨_, hq.symm⟩, hq⟩
  · intro σ E fuel n ins hn h
    obtain ⟨n', tr, hs, _, hpush, hq⟩ := spin_summary E fuel ins n (by rw [hn]; simpa using h)
    rw [hn, List.nil_append] at hq
    exact ⟨n', tr, hs, hpush, ⟨_, hq.symm⟩, hq⟩

/-- Witness of C7: the counting engine fed a fix of 9.5, a fix of 10.005, an
odometry sample of 10.0 and a fix of 10.5, from the empty queue, with fuel 4. -/
theorem gpsQueue_fifo_witness :
    ((⟨0, [], -1, 0⟩ : Node Nat).gpsQueue = []) ∧
    ([Input.gps (fixAt 9 500000000), Input.gps (fixAt 10 5000000), Input.vio (odomAt 10 0),
      Input.gps (fixAt 10 500000000)].length ≤ 4) ∧
    ∃ n' tr, spin countingEngine 4 ⟨0, [], -1, 0⟩
        [Input.gps (fixAt 9 500000000), Input.gps (fixAt 10 5000000), Input.vio (odomAt 10 0),
         Input.gps (fixAt 10 500000000)] = some (n', tr) ∧
      tr.filterMap Event.pushed? =
        [Input.gps (fixAt 9 500000000), Input.gps (fixAt 10 5000000), Input.vio (odomAt 10 0),
         Input.gps (fixAt 10 500000000)].filterMap Input.fix? ∧
      tr.filterMap Event.popped? <+: tr.filterMap Event.pushed? ∧
      tr.filterMap Event.pushed? = tr.filterMap Event.popped? ++ n'.gpsQueue :=
  ⟨rfl, by decide, gpsQueue_fifo.2.2 countingEngine 4 ⟨0, [], -1, 0⟩ _ rfl (by decide)⟩

/-! ## The mutex and the fusion engine -/

/-- C8, as stated, fails: on the buffer `[10.0]` at `t = 10.0` the fix is
matched and `inputGPS` is called after `m_buf.lock()` and before
`m_buf.unlock()`. -/
theorem inputGPS_called_under_lock :
    ∃ r, vio_callback countingEngine 1
        { globalEstimator := 0, gpsQueue := [fixAt 10 0], last_vio_t := -1,
          shared_time := 0 } (odomAt 10 0) = some r ∧
      (underLock false r.trace).filter Event.isFusionCall = [Event.inputGPS 10.0 0 0 0 1] ∧
      ∃ e ∈ underLock false r.trace, e.isFusionCall = true := by
  refine ⟨_, vio_callback_of_match countingEngine 1 _ (odomAt 10 0) [] (fixAt 10 0) []
    le_rfl rfl (by simp) (inWindow_10_10_0 time_10), ?_, ?_⟩
  · simp only [time_10, pos_accuracy_fixAt]
    norm_num [dropTrace, epilogue, underLock, Event.isFusionCall, fixAt]
  · refine ⟨Event.inputGPS 10.0 0 0 0 1, ?_, rfl⟩
    simp only [time_10, pos_accuracy_fixAt]
    norm_num [dropTrace, epilogue, underLock, fixAt]

/-- C8, amended: in the trace of any run of `vio_callback`, `m_buf` is locked
exactly once and unlocked exactly once, the lock coming first and the mutex
being free at the end; `inputOdom` is called before the lock and
`getGlobalOdom` after the unlock, and the only call into the fusion engine
made while the mutex is held is the `inputGPS` of the matched fix, made
exactly when a fix is matched. -/
theorem vio_callback_lock_scope {σ : Type} (E : GlobalOptimization σ) (fuel : Nat)
    (n : Node σ) (pose_msg : Odometry) (h : n.gpsQueue.length ≤ fuel) :
    ∃ r, vio_callback E fuel n pose_msg = some r ∧
      (r.trace.filter Event.isLock).length = 1 ∧
      (r.trace.filter Event.isUnlock).length = 1 ∧
      lockDiscipline false r.trace = true ∧
      (underLock false r.trace).filter Event.isFusionCall =
        (match r.matched with
         | some f =>
           [Event.inputGPS pose_msg.header.stamp.toSec f.latitude f.longitude f.altitude
             (pos_accuracy f)]
         | none => []) ∧
      ∃ held after,
        r.trace =
          Event.inputOdom pose_msg.header.stamp.toSec (vio_t pose_msg) (vio_q pose_msg) ::
            Event.lock :: (held ++ Event.unlock :: Event.getGlobalOdom :: after) ∧
        underLock false r.trace = held ∧
        after.filter Event.isFusionCall = [] := by
  obtain ⟨r, hr, k, _, hcase⟩ := vio_callback_cases E fuel n pose_msg h
  refine ⟨r, hr, ?_⟩
  rcases hcase with ⟨hm, _, _, probe, hp, htr⟩ | ⟨f, hm, _, _, _, htr⟩
  · rw [htr, hm]
    rcases hp with rfl | ⟨f, rfl⟩
    · have hU : underLock false
          (Event.inputOdom pose_msg.header.stamp.toSec (vio_t pose_msg) (vio_q pose_msg) ::
            Event.lock :: (dropTrace k ++
              ([Event.empty true] ++ epilogue E pose_msg r.node.globalEstimator))) =
          dropTrace k ++ [Event.empty true] := by
        simp [underLock, underLock_dropTrace_append, epilogue]
      refine ⟨?_, ?_, ?_, ?_, dropTrace k ++ [Event.empty true],
        (epilogue E pose_msg r.node.globalEstimator).drop 2, ?_, ?_, ?_⟩
      · simp only [List.filter_cons, List.filter_append, filter_isLock_dropTrace]
        simp [epilogue, Event.isLock]
      · simp only [List.filter_cons, List.filter_append, filter_isUnlock_dropTrace]
        simp [epilogue, Event.isUnlock]
      · simp [lockDiscipline, lockDiscipline_dropTrace_append, epilogue]
      · rw [hU, List.filter_append, filter_isFusionCall_dropTrace]
        simp [Event.isFusionCall]
      · simp [epilogue]
      · exact hU
      · simp [epilogue, Event.isFusionCall]
    · have hU : underLock false
          (Event.inputOdom pose_msg.header.stamp.toSec (vio_t pose_msg) (vio_q pose_msg) ::
            Event.lock :: (dropTrace k ++
              ([Event.empty false, Event.front f] ++
                epilogue E pose_msg r.node.globalEstimator))) =
          dropTrace k ++ [Event.empty false, Event.front f] := by
        simp [underLock, underLock_dropTrace_append, epilogue]
      refine ⟨?_, ?_, ?_, ?_, dropTrace k ++ [Event.empty false, Event.front f],
        (epilogue E pose_msg r.node.globalEstimator).drop 2, ?_, ?_, ?_⟩
      · simp only [List.filter_cons, List.filter_append, filter_isLock_dropTrace]
        simp [epilogue, Event.isLock]
      · simp only [List.filter_cons, List.filter_append, filter_isUnlock_dropTrace]
        simp [epilogue, Event.isUnlock]
      · simp [lockDiscipline, lockDiscipline_dropTrace_append, epilogue]
      · rw [hU, List.filter_append, filter_isFusionCall_dropTrace]
        simp [Event.isFusionCall]
      · simp [epilogue]
      · exact hU
      · simp [epilogue, Event.isFusionCall]
  · rw [htr, hm]
    have hU : underLock false
        (Event.inputOdom pose_msg.header.stamp.toSec (vio_t pose_msg) (vio_q pose_msg) ::
          Event.lock :: (dropTrace k ++
            ([Event.empty false, Event.front f,
              Event.inputGPS pose_msg.header.stamp.toSec f.latitude f.longitude f.altitude
                (pos_accuracy f), Event.pop f] ++
              epilogue E pose_msg r.node.globalEstimator))) =
        dropTrace k ++ [Event.empty false, Event.front f,
          Event.inputGPS pose_msg.header.stamp.toSec f.latitude f.longitude f.altitude
            (pos_accuracy f), Event.pop f] := by
      simp [underLock, underLock_dropTrace_append, epilogue]
    refine ⟨?_, ?_, ?_, ?_, dropTrace k ++ [Event.empty false, Event.front f,
        Event.inputGPS pose_msg.header.stamp.toSec f.latitude f.longitude f.altitude
          (pos_accuracy f), Event.pop f],
      (epilogue E pose_msg r.node.globalEstimator).drop 2, ?_, ?_, ?_⟩
    · simp only [List.filter_cons, List.filter_append, filter_isLock_dropTrace]
      simp [epilogue, Event.isLock]
    · simp only [List.filter_cons, List.filter_append, filter_isUnlock_dropTrace]
      simp [epilogue, Event.isUnlock]
    · simp [lockDiscipline, lockDiscipline_dropTrace_append, epilogue]
    · rw [hU, List.filter_append, filter_isFusionCall_dropTrace]
      simp [Event.isFusionCall]
    · simp [epilogue]
    · exact hU
    · simp [epilogue, Event.isFusionCall]

/-- Witness of C8 (amended): the counting engine on the buffer `[10.0]` at
`t = 10.0` with fuel 1. -/
theorem vio_callback_lock_scope_witness :
    ([fixAt 10 0].length ≤ 1) ∧
    ∃ r, vio_callback countingEngine 1
        { globalEstimator := 0, gpsQueue := [fixAt 10 0], last_vio_t := -1,
          shared_time := 0 } (odomAt 10 0) = some r ∧
      (r.trace.filter Event.isLock).length = 1 ∧
      (r.trace.filter Event.isUnlock).length = 1 ∧
      lockDiscipline false r.trace = true ∧
      (underLock false r.trace).filter Event.isFusionCall =
        (match r.matched with
         | some f =>
           [Event.inputGPS (odomAt 10 0).header.stamp.toSec f.latitude f.longitude
             f.altitude (pos_accuracy f)]
         | none => []) ∧
      ∃ held after,
        r.trace =
          Event.inputOdom (odomAt 10 0).header.stamp.toSec (vio_t (odomAt 10 0))
              (vio_q (odomAt 10 0)) ::
            Event.lock :: (held ++ Event.unlock :: Event.getGlobalOdom :: after) ∧
        underLock false r.trace = held ∧
        after.filter Event.isFusionCall = [] :=
  ⟨by decide,
   vio_callback_lock_scope countingEngine 1
     { globalEstimator := 0, gpsQueue := [fixAt 10 0], last_vio_t := -1, shared_time := 0 }
     (odomAt 10 0) (by decide)⟩

end GlobalOptNode
